import Mathlib

/-!
HTTPRoute reconciliation for the lattice gateway controller

A shallow embedding of `controllers/httproute_controller.go` and
`controllers/eventhandlers/gateway.go`, with the properties of the
reconciliation engine proved over it.

Conventions of the embedding

* Go pointers to scalars (`*Namespace`, `*SectionName`, `*Kind`, `*metav1.Time`)
  are `Option`s; slices are `List`s; `map[string]string` is an association list.
* A `metav1.Time` is the struct of its three fields, so that equality of two
  values is Go's `==` on them.
* A Go `error` result is `Option GoError` (`none` is `nil`); a `(value, error)`
  pair is `Except GoError value`.
* The collaborators held by `HTTPRouteReconciler` (object-store clients, model
  builder, stack deployer, marshaller, finalizer manager, data store, clock) are
  interfaces implemented outside these files. They are the fields of
  `HTTPRouteReconciler`, and every call to one that writes or starts work is
  recorded, in program order, as an `Effect`. Reads of the object store and
  logging (`glog`, `httpLog`) are not recorded.
* A run-time panic (index out of range) is the `Completion.panicked` outcome.
-/

namespace LatticeK8s

/-! ## Go and Kubernetes values -/

/-- A Go error value: its message and whether `apierrors.IsNotFound` holds of it. -/
structure GoError where
  notFound : Bool
  msg : String
  deriving DecidableEq, Repr

/-- A `metav1.Time`, which embeds a Go `time.Time`: the three fields the struct
comparison `==` looks at. `wall` is the `uint64` holding the nanoseconds in its low
30 bits and, when bit 63 (`hasMonotonic`) is set, the seconds since 1885 above
them; `ext` is the `int64` holding the seconds since year 1 when bit 63 is clear;
`loc` is the `*Location` pointer, `none` for nil and otherwise the location pointed
to. Two values are `==` exactly when the three fields are equal. -/
structure Time where
  wall : Nat
  ext : Int
  loc : Option Nat
  deriving DecidableEq, Repr

/-- The value `metav1.NewTime(time.Time{})` of `eventhandlers/gateway.go`, line 33:
the zero `time.Time`, all three fields zero. -/
def ZeroTransitionTime : Time := { wall := 0, ext := 0, loc := none }

/-- The constant `wallToInternal` of package `time`: the seconds from year 1 to
1885, `(1884*365 + 1884/4 - 1884/100 + 1884/400) * 86400`. -/
def wallToInternal : Int := (1884 * 365 + 1884 / 4 - 1884 / 100 + 1884 / 400) * 86400

/-- The method `time.Time.nsec`: `wall & nsecMask`, the low 30 bits of `wall`. -/
def Time.nsec (t : Time) : Nat := t.wall % 2 ^ 30

/-- The method `time.Time.sec`: with `wall & hasMonotonic` set it is
`wallToInternal + int64(wall << 1 >> 31)`, the 33-bit seconds field of the 64-bit
`wall`; otherwise it is `ext`. -/
def Time.sec (t : Time) : Int :=
  if t.wall / 2 ^ 63 % 2 = 1 then wallToInternal + ((t.wall % 2 ^ 63 / 2 ^ 30 : Nat) : Int)
  else t.ext

/-- The method `time.Time.IsZero`: `t.sec() == 0 && t.nsec() == 0`. -/
def Time.IsZero (t : Time) : Bool := t.sec == 0 && t.nsec == 0

/-- The key type `types.NamespacedName`. -/
structure NamespacedName where
  Namespace : String
  Name : String
  deriving DecidableEq, Repr

/-- The fields of `gateway_api.ParentReference` the controller reads or writes. -/
structure ParentReference where
  Group : Option String
  Kind : Option String
  Namespace : Option String
  Name : String
  SectionName : Option String
  deriving DecidableEq, Repr

/-- The fields of `gateway_api.BackendRef` read when a listener is built. -/
structure BackendRef where
  Name : String
  Namespace : Option String
  Kind : Option String
  deriving DecidableEq, Repr

/-- One `gateway_api.HTTPRouteRule`, reduced to its backend references. -/
structure HTTPRouteRule where
  BackendRefs : List BackendRef
  deriving DecidableEq, Repr

/-- The `metav1.ConditionStatus` enumeration. -/
inductive ConditionStatus where
  | ConditionUnset
  | ConditionTrue
  | ConditionFalse
  | ConditionUnknown
  deriving DecidableEq, Repr

/-- A `metav1.Condition`. -/
structure Condition where
  Type_ : String
  Status : ConditionStatus
  ObservedGeneration : Int
  LastTransitionTime : Time
  Reason : String
  Message : String
  deriving DecidableEq, Repr

/-- A `gateway_api.RouteParentStatus`. -/
structure RouteParentStatus where
  ParentRef : ParentReference
  ControllerName : String
  Conditions : List Condition
  deriving DecidableEq, Repr

/-- A `gateway_api.HTTPRoute`: object metadata, spec and status. -/
structure HTTPRoute where
  Name : String
  Namespace : String
  Generation : Int
  DeletionTimestamp : Option Time
  Annotations : List (String × String)
  ParentRefs : List ParentReference
  Rules : List HTTPRouteRule
  Parents : List RouteParentStatus
  deriving DecidableEq, Repr

/-- The `gateway_api.TLSModeType` enumeration. -/
inductive TLSModeType where
  | TLSModeTerminate
  | TLSModePassthrough
  deriving DecidableEq, Repr

/-- A `gateway_api.GatewayTLSConfig`: mode and options map. -/
structure GatewayTLSConfig where
  Mode : Option TLSModeType
  Options : List (String × String)
  deriving DecidableEq, Repr

/-- A listener declared in a Gateway spec (`gateway_api.Listener`). -/
structure GatewayListener where
  Name : String
  Port : Int
  Protocol : String
  TLS : Option GatewayTLSConfig
  deriving DecidableEq, Repr

/-- A `gateway_api.Gateway`, reduced to its spec. -/
structure Gateway where
  GatewayClassName : String
  Listeners : List GatewayListener
  deriving DecidableEq, Repr

/-- A `gateway_api.GatewayClass`, reduced to its spec. -/
structure GatewayClass where
  ControllerName : String
  deriving DecidableEq, Repr

/-- The zero value of `metav1.Condition`, as `make([]metav1.Condition, 1)` yields. -/
def Condition.zero : Condition :=
  { Type_ := "", Status := ConditionStatus.ConditionUnset, ObservedGeneration := 0,
    LastTransitionTime := ZeroTransitionTime, Reason := "", Message := "" }

/-- The zero value of `gateway_api.ParentReference`. -/
def ParentReference.zero : ParentReference :=
  { Group := none, Kind := none, Namespace := none, Name := "", SectionName := none }

/-- Reading `m[k]` of a Go map held as an association list. -/
def mapGet (m : List (String × String)) (k : String) : Option String :=
  match m with
  | [] => none
  | (k1, v1) :: rest => if k1 = k then some v1 else mapGet rest k

/-- The assignment `m[k] = v` on a Go map held as an association list. -/
def mapSet (m : List (String × String)) (k v : String) : List (String × String) :=
  match m with
  | [] => [(k, v)]
  | (k1, v1) :: rest => if k1 = k then (k, v) :: rest else (k1, v1) :: mapSet rest k v

/-- The method `(*metav1.Time).IsZero`: a nil pointer, or a time that `IsZero`. -/
def DeletionTimestampIsZero (t : Option Time) : Bool :=
  match t with
  | none => true
  | some v => v.IsZero

/-- The function `client.IgnoreNotFound`. -/
def IgnoreNotFound (err : GoError) : Option GoError :=
  if err.notFound then none else some err

/-- The function `errors.Wrapf(err, msg)`: the message is put in front of the cause. -/
def Wrapf (err : GoError) (msg : String) : GoError :=
  { err with msg := msg ++ ": " ++ err.msg }

/-! ## The resource graph -/

/-- Modelled from the spec: the `DefaultAction` descriptor of the package
`pkg/model/lattice`, absent from the sources at hand: target backend name,
target backend namespace and the `isImport` flag. -/
structure DefaultAction where
  BackendServiceName : String
  BackendServiceNamespace : String
  Is_Import : Bool
  deriving DecidableEq, Repr

/-- Modelled from the spec: the `Listener` descriptor of `pkg/model/lattice`:
port, protocol, owning service name and namespace, default action. -/
structure ListenerSpec where
  Name : String
  Namespace : String
  Port : Int
  Protocol : String
  DefaultAction : DefaultAction
  deriving DecidableEq, Repr

/-- Modelled from the spec: a `Listener` resource of the stack. -/
structure Listener where
  Spec : ListenerSpec
  deriving DecidableEq, Repr

/-- Modelled from the spec: the `Service` descriptor of `pkg/model/lattice`:
name, namespace and the optional customer certificate reference. -/
structure ServiceSpec where
  Name : String
  Namespace : String
  CustomerCertARN : String
  deriving DecidableEq, Repr

/-- Modelled from the spec: a `Service` resource. -/
structure Service where
  Spec : ServiceSpec
  deriving DecidableEq, Repr

/-- Modelled from the spec: the resource kinds a stack holds (section 3). Kinds
that no listener build touches carry their resource identifier only. -/
inductive Resource where
  | Service (r : Service)
  | Listener (r : Listener)
  | Rule (id : String)
  | TargetGroup (id : String)
  | Targets (id : String)
  deriving DecidableEq, Repr

/-- Modelled from the spec: the logical key of a resource within its kind
(namespace, name and a discriminator; for a listener the discriminator is its
port and protocol). -/
inductive ResourceKey where
  | Service (name ns : String)
  | Listener (name ns : String) (port : Int) (protocol : String)
  | Rule (id : String)
  | TargetGroup (id : String)
  | Targets (id : String)
  deriving DecidableEq, Repr

/-- Modelled from the spec: the logical key under which a resource is stored. -/
def Resource.key (r : Resource) : ResourceKey :=
  match r with
  | Resource.Service s => ResourceKey.Service s.Spec.Name s.Spec.Namespace
  | Resource.Listener l =>
      ResourceKey.Listener l.Spec.Name l.Spec.Namespace l.Spec.Port l.Spec.Protocol
  | Resource.Rule id => ResourceKey.Rule id
  | Resource.TargetGroup id => ResourceKey.TargetGroup id
  | Resource.Targets id => ResourceKey.Targets id

/-- Modelled from the spec: the stack of `pkg/model/core`: an identity derived
from the route's namespace and name, and the resources in insertion order. -/
structure Stack where
  StackID : NamespacedName
  resources : List Resource
  deriving DecidableEq, Repr

/-- Modelled from the spec: `core.NewDefaultStack`, a stack without resources. -/
def NewDefaultStack (id : NamespacedName) : Stack :=
  { StackID := id, resources := [] }

/-- Modelled from the spec: putting a resource into a resource list. A resource
with the same logical key is replaced where it stands, so that no two resources
of a kind share a key; a new key goes to the end. -/
def putResource (rs : List Resource) (r : Resource) : List Resource :=
  match rs with
  | [] => [r]
  | x :: rest => if x.key = r.key then r :: rest else x :: putResource rest r

/-- Modelled from the spec: `Stack.AddResource`. -/
def Stack.AddResource (stack : Stack) (r : Resource) : Stack :=
  { stack with resources := putResource stack.resources r }

/-- Modelled from the spec: `Stack.ListResources` at kind `Listener`: the
listeners of the stack in the order they were added. -/
def Stack.ListListeners (stack : Stack) : List Listener :=
  stack.resources.filterMap fun r =>
    match r with
    | Resource.Listener l => some l
    | _ => none

/-! ## Collaborators and effects -/

/-- The event types `corev1.EventTypeNormal` and `corev1.EventTypeWarning`. -/
inductive EventType where
  | EventTypeNormal
  | EventTypeWarning
  deriving DecidableEq, Repr

/-- The event reasons of package `pkg/k8s` named in the controller. The package
is not among the sources; each constant is a value of its own. -/
inductive EventReason where
  | HTTPRouteeventReasonReconcile
  | HTTPRouteEventReasonFailedBuildModel
  | HTTPRouteEventReasonRetryReconcile
  | HTTPRouteEventReasonFailedDeployModel
  | HTTPRouteventReasonFailedAddFinalizer
  | HTTPRouteeventReasonDeploySucceed
  deriving DecidableEq, Repr

/-- A call made to a collaborator that writes or starts work, with its arguments. -/
inductive Effect where
  | Event (obj : HTTPRoute) (eventtype : EventType) (reason : EventReason) (message : String)
  | AddFinalizers (obj : HTTPRoute) (finalizer : String)
  | RemoveFinalizers (obj : HTTPRoute) (finalizer : String)
  | Build (route : HTTPRoute)
  | Marshal (stack : Stack)
  | Deploy (stack : Stack)
  | Patch (obj old : HTTPRoute)
  | StatusPatch (obj old : HTTPRoute)
  | UpdateHTTPRouteListenerStatus (route : HTTPRoute)
  deriving DecidableEq, Repr

/-- The record `latticestore.LatticeServiceStatus`, of which the controller reads `DNS`. -/
structure LatticeServiceStatus where
  DNS : String
  deriving DecidableEq, Repr

/-- The constants of package `pkg/config` the controllers compare against. -/
structure Config where
  LatticeGatewayControllerName : String
  deriving DecidableEq, Repr

/-- The struct `HTTPRouteReconciler` of `httproute_controller.go`, lines 53-64:
what each collaborator answers during one reconciliation.

* `ClientGet`, `ClientPatch`, `ClientStatusPatch`: `r.Client.Get`,
  `r.Client.Patch(obj, MergeFrom(old))`, `r.Client.Status().Patch(obj, MergeFrom(old))`;
* `gwReconcilerGet`, `gwClassReconcilerGet`: `Client.Get` of the two reconcilers;
* `AddFinalizers`, `RemoveFinalizers`: the finalizer manager;
* `Build`, `Marshal`, `Deploy`: model builder, stack marshaller, stack deployer;
* `GetLatticeService`: the data store as it stands after `Deploy`;
* `Now`: the reading of `time.Now()`. -/
structure HTTPRouteReconciler where
  ClientGet : NamespacedName → Except GoError HTTPRoute
  ClientPatch : HTTPRoute → HTTPRoute → Option GoError
  ClientStatusPatch : HTTPRoute → HTTPRoute → Option GoError
  gwReconcilerGet : NamespacedName → Except GoError Gateway
  gwClassReconcilerGet : NamespacedName → Except GoError GatewayClass
  AddFinalizers : HTTPRoute → String → Option GoError
  RemoveFinalizers : HTTPRoute → String → Option GoError
  Build : HTTPRoute → Except GoError (Stack × Service)
  Marshal : Stack → String × Option GoError
  Deploy : Stack → Option GoError
  GetLatticeService : String → String → Except GoError LatticeServiceStatus
  Now : Time

/-- How a call ends: it returns a value or panics. -/
inductive Completion (α : Type) where
  | returned (v : α)
  | panicked (msg : String)
  deriving DecidableEq, Repr

/-- The outcome of a controller function returning `error`: how it ended and the
effects it had, in order. -/
structure Run where
  completion : Completion (Option GoError)
  effects : List Effect
  deriving DecidableEq, Repr

/-- The outcome of `buildAndDeployModel`: its three results and its effects. -/
structure BuildRun where
  stack : Option Stack
  latticeService : Option Service
  err : Option GoError
  effects : List Effect
  deriving DecidableEq, Repr

/-- The outcome of `updateHTTPRouteStatus`: how it ended, the route object as the
call left it, and the effects. -/
structure StatusRun where
  completion : Completion (Option GoError)
  httproute : HTTPRoute
  effects : List Effect
  deriving DecidableEq, Repr

/-! ## `controllers/httproute_controller.go` -/

/-- The constant `httpRouteFinalizer`, line 67. -/
def httpRouteFinalizer : String := "httproute.k8s.aws/resources"

/-- The constant `LatticeAssignedDomainName`, line 68. -/
def LatticeAssignedDomainName : String :=
  "application-networking.k8s.aws/lattice-assigned-domain-name"

/-- The constant `gateway_api.RouteConditionAccepted`. -/
def RouteConditionAccepted : String := "Accepted"

/-- The constant `gateway_api.RouteReasonAccepted`. -/
def RouteReasonAccepted : String := "Accepted"

/-- The method `isHTTPRouteRelevant`, lines 157-203. -/
def isHTTPRouteRelevant (config : Config) (r : HTTPRouteReconciler) (httpRoute : HTTPRoute) :
    Bool :=
  match httpRoute.ParentRefs with
  | [] => false
  | parentRef0 :: _ =>
    let gwNamespace :=
      match parentRef0.Namespace with
      | some ns => ns
      | none => httpRoute.Namespace
    let gwName : NamespacedName := { Namespace := gwNamespace, Name := parentRef0.Name }
    match r.gwReconcilerGet gwName with
    | Except.error _ => false
    | Except.ok gw =>
      let gwClassName : NamespacedName := { Namespace := "default", Name := gw.GatewayClassName }
      match r.gwClassReconcilerGet gwClassName with
      | Except.error _ => false
      | Except.ok gwClass =>
        if gwClass.ControllerName = config.LatticeGatewayControllerName then true else false

/-- The call `errors.As(err, &retryErr)` of line 234. The target `retryErr` is
declared by `var retryErr = errors.New(...)`, so its static type is the interface
`error`; `errors.As` asks whether `err` is assignable to the target's type, and
every non-nil error is assignable to `error`. -/
def errorsAsRetryErr (_err : GoError) : Bool := true

/-- The method `buildAndDeployModel`, lines 205-248. The `err` returned on line
247 is the variable of line 208, which line 221 assigns again with the result of
`Marshal`; the `err` of line 229 is local to its `if`. -/
def buildAndDeployModel (r : HTTPRouteReconciler) (httproute : HTTPRoute) : BuildRun :=
  match r.Build httproute with
  | Except.error err =>
    { stack := none, latticeService := none, err := some err,
      effects := [Effect.Build httproute,
        Effect.Event httproute EventType.EventTypeWarning
          EventReason.HTTPRouteEventReasonFailedBuildModel
          ("Failed build model due to " ++ err.msg)] }
  | Except.ok (stack, latticeService) =>
    let err := (r.Marshal stack).2
    match r.Deploy stack with
    | some derr =>
      let ev :=
        if errorsAsRetryErr derr then
          Effect.Event httproute EventType.EventTypeNormal
            EventReason.HTTPRouteEventReasonRetryReconcile "retry reconcile..."
        else
          Effect.Event httproute EventType.EventTypeWarning
            EventReason.HTTPRouteEventReasonFailedDeployModel
            ("Failed deploy model due to " ++ derr.msg)
      { stack := none, latticeService := none, err := some derr,
        effects := [Effect.Build httproute, Effect.Marshal stack, Effect.Deploy stack, ev] }
    | none =>
      { stack := some stack, latticeService := some latticeService, err := err,
        effects := [Effect.Build httproute, Effect.Marshal stack, Effect.Deploy stack] }

/-- The method `cleanupHTTPRouteResources`, lines 150-155. -/
def cleanupHTTPRouteResources (r : HTTPRouteReconciler) (httpRoute : HTTPRoute) : BuildRun :=
  buildAndDeployModel r httpRoute

/-- The message of the panic Go raises on `s[0]` for an empty slice `s`. -/
def indexOutOfRange : String := "runtime error: index out of range [0] with length 0"

/-- The method `updateHTTPRouteStatus`, lines 276-325. `UpdateHTTPRouteListenerStatus`
(line 315) is defined in another file of the package; its call is recorded and the
route object is taken as it stands. -/
def updateHTTPRouteStatus (config : Config) (r : HTTPRouteReconciler) (dns : String)
    (httproute : HTTPRoute) : StatusRun :=
  let httprouteOld := httproute
  let httproute :=
    if httproute.Annotations.length = 0 then { httproute with Annotations := [] } else httproute
  let httproute :=
    { httproute with Annotations := mapSet httproute.Annotations LatticeAssignedDomainName dns }
  match r.ClientPatch httproute httprouteOld with
  | some err =>
    { completion := Completion.returned (some (Wrapf err "failed to update httproute status")),
      httproute := httproute,
      effects := [Effect.Patch httproute httprouteOld] }
  | none =>
    let patched := [Effect.Patch httproute httprouteOld]
    let httprouteOld := httproute
    let httproute :=
      if httproute.Parents.length = 0 then
        { httproute with
          Parents := [{ ParentRef := ParentReference.zero, ControllerName := "",
                        Conditions := [{ Condition.zero with
                                         LastTransitionTime := ZeroTransitionTime }] }] }
      else httproute
    match httproute.Parents with
    | [] => { completion := Completion.panicked indexOutOfRange, httproute := httproute,
              effects := patched }
    | parent0 :: parents =>
      let parent0 := { parent0 with ControllerName := config.LatticeGatewayControllerName }
      match parent0.Conditions with
      | [] => { completion := Completion.panicked indexOutOfRange,
                httproute := { httproute with Parents := parent0 :: parents },
                effects := patched }
      | cond0 :: conds =>
        let cond0 :=
          { cond0 with
            Type_ := RouteConditionAccepted,
            Status := ConditionStatus.ConditionTrue,
            Message := "DNS Name: " ++ dns,
            Reason := RouteReasonAccepted,
            ObservedGeneration := httproute.Generation }
        let cond0 :=
          if cond0.LastTransitionTime = ZeroTransitionTime then
            { cond0 with LastTransitionTime := r.Now }
          else cond0
        let parent0 := { parent0 with Conditions := cond0 :: conds }
        match httproute.ParentRefs with
        | [] => { completion := Completion.panicked indexOutOfRange,
                  httproute := { httproute with Parents := parent0 :: parents },
                  effects := patched }
        | parentRef0 :: _ =>
          let parent0 :=
            { parent0 with
              ParentRef := { parent0.ParentRef with
                             Group := parentRef0.Group,
                             Kind := parentRef0.Kind,
                             Name := parentRef0.Name } }
          let httproute := { httproute with Parents := parent0 :: parents }
          let effects := patched ++ [Effect.UpdateHTTPRouteListenerStatus httproute,
            Effect.StatusPatch httproute httprouteOld]
          match r.ClientStatusPatch httproute httprouteOld with
          | some err =>
            { completion :=
                Completion.returned (some (Wrapf err "failed to update httproute status")),
              httproute := httproute, effects := effects }
          | none =>
            { completion := Completion.returned none, httproute := httproute,
              effects := effects }

/-- The method `reconcileHTTPRouteResource`, lines 250-274. The value returned by
`updateHTTPRouteStatus` is dropped on line 268; a panic in it unwinds the caller. -/
def reconcileHTTPRouteResource (config : Config) (r : HTTPRouteReconciler)
    (httproute : HTTPRoute) : Run :=
  let fin :=
    match r.AddFinalizers httproute httpRouteFinalizer with
    | some err =>
      [Effect.AddFinalizers httproute httpRouteFinalizer,
       Effect.Event httproute EventType.EventTypeWarning
         EventReason.HTTPRouteventReasonFailedAddFinalizer
         ("Failed add finalizer due to " ++ err.msg)]
    | none => [Effect.AddFinalizers httproute httpRouteFinalizer]
  let b := buildAndDeployModel r httproute
  match b.err with
  | some err => { completion := Completion.returned (some err), effects := fin ++ b.effects }
  | none =>
    let done := fin ++ b.effects ++
      [Effect.Event httproute EventType.EventTypeNormal
         EventReason.HTTPRouteeventReasonDeploySucceed "Adding/Updating reconcile Done!"]
    match r.GetLatticeService httproute.Name httproute.Namespace with
    | Except.error _ => { completion := Completion.returned none, effects := done }
    | Except.ok serviceStatus =>
      let s := updateHTTPRouteStatus config r serviceStatus.DNS httproute
      match s.completion with
      | Completion.returned _ =>
        { completion := Completion.returned none, effects := done ++ s.effects }
      | Completion.panicked m =>
        { completion := Completion.panicked m, effects := done ++ s.effects }

/-- The method `reconcile`, lines 109-148. -/
def reconcile (config : Config) (r : HTTPRouteReconciler) (req : NamespacedName) : Run :=
  match r.ClientGet req with
  | Except.error err => { completion := Completion.returned (IgnoreNotFound err), effects := [] }
  | Except.ok httpRoute =>
    if !isHTTPRouteRelevant config r httpRoute then
      { completion := Completion.returned none, effects := [] }
    else if !DeletionTimestampIsZero httpRoute.DeletionTimestamp then
      let ev := Effect.Event httpRoute EventType.EventTypeNormal
        EventReason.HTTPRouteeventReasonReconcile "Deleting Reconcile"
      let c := cleanupHTTPRouteResources r httpRoute
      match c.err with
      | some err => { completion := Completion.returned (some err), effects := ev :: c.effects }
      | none =>
        { completion := Completion.returned none,
          effects := ev :: c.effects ++
            [Effect.UpdateHTTPRouteListenerStatus httpRoute,
             Effect.RemoveFinalizers httpRoute httpRouteFinalizer] }
    else
      let ev := Effect.Event httpRoute EventType.EventTypeNormal
        EventReason.HTTPRouteeventReasonReconcile "Adding/Updating Reconcile"
      let x := reconcileHTTPRouteResource config r httpRoute
      { x with effects := ev :: x.effects }

/-! ## The listener build of the model builder

`pkg/gateway/model_build_listener.go` is not among the sources; its test
`model_build_listener_test.go` is. The definitions below follow section 4.1 of
the specification and the fixtures of the test. -/

/-- Modelled from the spec: the recognised certificate key `awsCustomCertARN` of
the absent `model_build_listener.go`, with the value of the scenario in section 8. -/
def awsCustomCertARN : String := "aws-custom-cert-arn"

/-- Modelled from the spec: the failure classes of section 7 a build can end in. -/
inductive BuildError where
  | ValidationError (msg : String)
  | NotReady (cause : GoError)
  deriving DecidableEq, Repr

/-- Modelled from the spec: the struct `latticeServiceModelBuildTask` as the test
fills it: the route, the stack under construction, the object-store lookup of a
Gateway and the service descriptor. -/
structure latticeServiceModelBuildTask where
  httpRoute : HTTPRoute
  stack : Stack
  ClientGet : NamespacedName → Except GoError Gateway
  latticeService : Service

/-- Modelled from the spec: step 1 of section 4.1, the listeners of the resolved
Gateway whose name matches the parent reference's `sectionName`, or all of them
when it is unspecified. -/
def selectListeners (gw : Gateway) (parentRef : ParentReference) : List GatewayListener :=
  match parentRef.SectionName with
  | none => gw.Listeners
  | some sectionName => gw.Listeners.filter fun l => decide (l.Name = sectionName)

/-- Modelled from the spec: step 2 of section 4.1, the certificate reference a
Gateway listener asks for: its TLS block has mode Terminate and its options map
holds the recognised key. -/
def certificateOf (l : GatewayListener) : Option String :=
  match l.TLS with
  | none => none
  | some tls =>
    match tls.Mode with
    | some TLSModeType.TLSModeTerminate => mapGet tls.Options awsCustomCertARN
    | _ => none

/-- Modelled from the spec: step 3 of section 4.1, the default action taken from
the first rule's first backend reference. The kind tells a service from a service
import, the namespace defaults to the route's; an unsupported kind is a
validation error (section 7), and so is a route without a first backend reference. -/
def defaultActionOf (httpRoute : HTTPRoute) : Except BuildError DefaultAction :=
  match httpRoute.Rules with
  | [] => Except.error (BuildError.ValidationError "no rule")
  | rule0 :: _ =>
    match rule0.BackendRefs with
    | [] => Except.error (BuildError.ValidationError "no backend reference")
    | backendRef0 :: _ =>
      let ns :=
        match backendRef0.Namespace with
        | some ns => ns
        | none => httpRoute.Namespace
      if backendRef0.Kind = some "Service" then
        Except.ok { BackendServiceName := backendRef0.Name, BackendServiceNamespace := ns,
                    Is_Import := false }
      else if backendRef0.Kind = some "ServiceImport" then
        Except.ok { BackendServiceName := backendRef0.Name, BackendServiceNamespace := ns,
                    Is_Import := true }
      else Except.error (BuildError.ValidationError "unsupported backend kind")

/-- Modelled from the spec: steps 1 and 2 of section 4.1 for one selected Gateway
listener: the certificate reference, when asked for, is copied onto the service,
and one `Listener` resource with the Gateway listener's port and protocol and the
route's name and namespace is added to the stack. -/
def buildOneListener (httpRoute : HTTPRoute) (action : DefaultAction)
    (acc : Stack × Service) (l : GatewayListener) : Stack × Service :=
  let service : Service :=
    match certificateOf l with
    | some arn => { acc.2 with Spec := { acc.2.Spec with CustomerCertARN := arn } }
    | none => acc.2
  let listener : Listener :=
    { Spec := { Name := httpRoute.Name, Namespace := httpRoute.Namespace, Port := l.Port,
                Protocol := l.Protocol, DefaultAction := action } }
  (acc.1.AddResource (Resource.Listener listener), service)

/-- Modelled from the spec: `buildListener` of the absent `model_build_listener.go`,
after section 4.1. A route without parent reference fails validation; a parent
Gateway that does not resolve (looked up under the parent reference's namespace,
the route's when it gives none) is `NotReady`; both leave the task as it was.
Otherwise every selected listener is built in turn. -/
def buildListener (task : latticeServiceModelBuildTask) :
    Option BuildError × latticeServiceModelBuildTask :=
  match task.httpRoute.ParentRefs with
  | [] => (some (BuildError.ValidationError "no parent reference"), task)
  | parentRef0 :: _ =>
    let gwNamespace :=
      match parentRef0.Namespace with
      | some ns => ns
      | none => task.httpRoute.Namespace
    match task.ClientGet { Namespace := gwNamespace, Name := parentRef0.Name } with
    | Except.error err => (some (BuildError.NotReady err), task)
    | Except.ok gw =>
      match defaultActionOf task.httpRoute with
      | Except.error e => (some e, task)
      | Except.ok action =>
        let out := (selectListeners gw parentRef0).foldl
          (buildOneListener task.httpRoute action) (task.stack, task.latticeService)
        (none, { task with stack := out.1, latticeService := out.2 })

/-! ## Fixtures

The objects of `Test_ListenerModelBuild` and collaborators answering for them. -/

/-- A reading of `time.Now()` taken `n` seconds after 1885: the monotonic bit is
set in `wall`, and the location is the local one. -/
def fixtureClock (n : Nat) : Time :=
  { wall := 2 ^ 63 + n * 2 ^ 30, ext := n, loc := some 1 }

/-- A time as decoded from a stored object, `n` seconds after year 1, without
monotonic reading, in the local location. -/
def fixtureStoredTime (n : Nat) : Time :=
  { wall := 0, ext := n, loc := some 1 }

/-- A configuration naming this control plane. -/
def fixtureConfig : Config :=
  { LatticeGatewayControllerName := "application-networking.k8s.aws/gateway-api-controller" }

/-- The backend reference `backendRef` of the test, lines 36-41. -/
def fixtureBackendRef : BackendRef :=
  { Name := "targetgroup1", Namespace := none, Kind := some "Service" }

/-- The route of the test case "listener, default service action", lines 68-92. -/
def fixtureRoute : HTTPRoute :=
  { Name := "service1", Namespace := "default", Generation := 3, DeletionTimestamp := none,
    Annotations := [],
    ParentRefs := [{ Group := none, Kind := none, Namespace := none, Name := "mesh1",
                     SectionName := some "http" }],
    Rules := [{ BackendRefs := [fixtureBackendRef] }],
    Parents := [] }

/-- The route of the test case "no parentref", lines 233-252. -/
def fixtureRouteNoParent : HTTPRoute :=
  { fixtureRoute with ParentRefs := [] }

/-- The fixture route once deletion has been requested, 5 seconds after year 1. -/
def fixtureRouteDeleting : HTTPRoute :=
  { fixtureRoute with DeletionTimestamp := some (fixtureStoredTime 5) }

/-- The Gateway the mocked client of the test answers with, lines 302-334, with
TLS termination and the recognised certificate option. -/
def fixtureGateway : Gateway :=
  { GatewayClassName := "amazon-vpc-lattice",
    Listeners := [{ Name := "http", Port := 80, Protocol := "HTTP",
                    TLS := some { Mode := some TLSModeType.TLSModeTerminate,
                                  Options := [(awsCustomCertARN, "test-cert-ARN")] } }] }

/-- An error that is not a not-found answer. -/
def fixtureError : GoError := { notFound := false, msg := "unknown k8s object" }

/-- The stack a build of the fixture route yields. -/
def fixtureStack : Stack :=
  NewDefaultStack { Namespace := "default", Name := "service1" }

/-- The service descriptor of the fixture route. -/
def fixtureService : Service :=
  { Spec := { Name := "service1", Namespace := "default", CustomerCertARN := "" } }

/-- Collaborators for which every call succeeds: the object store holds the
fixture routes, Gateway `mesh1` and its class, and the data store knows the
service under the name `dns`. -/
def fixtureReconciler (route : HTTPRoute) (dns : String) (now : Nat) : HTTPRouteReconciler :=
  { ClientGet := fun _ => Except.ok route,
    ClientPatch := fun _ _ => none,
    ClientStatusPatch := fun _ _ => none,
    gwReconcilerGet := fun n =>
      if n = { Namespace := "default", Name := "mesh1" } then Except.ok fixtureGateway
      else Except.error { notFound := true, msg := "not found" },
    gwClassReconcilerGet := fun n =>
      if n = { Namespace := "default", Name := "amazon-vpc-lattice" } then
        Except.ok { ControllerName := fixtureConfig.LatticeGatewayControllerName }
      else Except.error { notFound := true, msg := "not found" },
    AddFinalizers := fun _ _ => none,
    RemoveFinalizers := fun _ _ => none,
    Build := fun _ => Except.ok (fixtureStack, fixtureService),
    Marshal := fun _ => ("", none),
    Deploy := fun _ => none,
    GetLatticeService := fun _ _ => Except.ok { DNS := dns },
    Now := fixtureClock now }

/-- The fixture collaborators with a model builder that fails. -/
def fixtureReconcilerBuildFails (route : HTTPRoute) : HTTPRouteReconciler :=
  { fixtureReconciler route "" 1 with Build := fun _ => Except.error fixtureError }

/-- The build task of the test, lines 343-356, over a client that knows `mesh1`. -/
def fixtureTask (route : HTTPRoute) : latticeServiceModelBuildTask :=
  { httpRoute := route,
    stack := NewDefaultStack { Namespace := route.Namespace, Name := route.Name },
    ClientGet := fun _ => Except.ok fixtureGateway,
    latticeService := { Spec := { Name := "", Namespace := "", CustomerCertARN := "" } } }

/-- The build task of the test case "No k8sgateway object": the lookup fails. -/
def fixtureTaskNoGateway (route : HTTPRoute) : latticeServiceModelBuildTask :=
  { fixtureTask route with ClientGet := fun _ => Except.error fixtureError }

/-- The listener `http` of the fixture Gateway. -/
def fixtureListener : GatewayListener :=
  { Name := "http", Port := 80, Protocol := "HTTP",
    TLS := some { Mode := some TLSModeType.TLSModeTerminate,
                  Options := [(awsCustomCertARN, "test-cert-ARN")] } }

/-- The `Listener` resource the end-to-end scenario of section 8 expects. -/
def fixtureBuiltListener : Listener :=
  { Spec := { Name := "service1", Namespace := "default", Port := 80, Protocol := "HTTP",
              DefaultAction := { BackendServiceName := "targetgroup1",
                                 BackendServiceNamespace := "default", Is_Import := false } } }

/-! ## Observations on a route's status -/

/-- The condition `Status.Parents[0].Conditions[0]` of a route, when both slices
have a first entry. -/
def firstCondition (httproute : HTTPRoute) : Option Condition :=
  match httproute.Parents with
  | [] => none
  | parent0 :: _ =>
    match parent0.Conditions with
    | [] => none
    | cond0 :: _ => some cond0

/-- The `LastTransitionTime` of `Status.Parents[0].Conditions[0]`, when there is one. -/
def firstTransitionTime (httproute : HTTPRoute) : Option Time :=
  (firstCondition httproute).map fun c => c.LastTransitionTime

/-- The fixture route carrying a parent status whose `Conditions` slice is empty. -/
def fixtureRouteEmptyConditions : HTTPRoute :=
  { fixtureRoute with
    Parents := [{ ParentRef := ParentReference.zero, ControllerName := "", Conditions := [] }] }

/-! ## `controllers/eventhandlers/gateway.go` -/

/-- The struct `enqueueRequestsForGatewayEvent`, lines 23-25: what its `client`
answers. `clientList` is the item list the `List` call of line 68 fills (its error
is dropped, the list staying empty); the two `Get`s are those of lines 86 and 98.
The handler reads `v1alpha2` objects, which carry the fields read here under the
same names as the `v1beta1` ones. -/
structure enqueueRequestsForGatewayEvent where
  clientList : List HTTPRoute
  clientGetGateway : NamespacedName → Except GoError Gateway
  clientGetGatewayClass : NamespacedName → Except GoError GatewayClass

/-- A `reconcile.Request`. -/
structure Request where
  NamespacedName : NamespacedName
  deriving DecidableEq, Repr

/-- The body of the loop of `enqueueImpactedHTTPRoute`, lines 70-113, for one
listed route: the queue after the iteration. The Gateway is looked up under
namespace "default" (line 80). -/
def enqueueImpactedHTTPRouteBody (config : Config) (h : enqueueRequestsForGatewayEvent)
    (queue : List Request) (httpRoute : HTTPRoute) : List Request :=
  match httpRoute.ParentRefs with
  | [] => queue
  | parentRef0 :: _ =>
    let gwName : NamespacedName := { Namespace := "default", Name := parentRef0.Name }
    match h.clientGetGateway gwName with
    | Except.error _ => queue
    | Except.ok gw =>
      let gwClassName : NamespacedName := { Namespace := "default", Name := gw.GatewayClassName }
      match h.clientGetGatewayClass gwClassName with
      | Except.error _ => queue
      | Except.ok gwClass =>
        if gwClass.ControllerName = config.LatticeGatewayControllerName then
          queue ++ [{ NamespacedName :=
                        { Namespace := httpRoute.Namespace, Name := httpRoute.Name } }]
        else queue

/-- The method `enqueueImpactedHTTPRoute`, lines 65-114: the queue after the
requests are added. The parameter `gw` of line 65 is shadowed by the variable
declared on line 84 before any use. -/
def enqueueImpactedHTTPRoute (config : Config) (h : enqueueRequestsForGatewayEvent)
    (queue : List Request) (_gw : Gateway) : List Request :=
  h.clientList.foldl (enqueueImpactedHTTPRouteBody config h) queue

/-! ## Further fixtures -/

/-- An error a cloud call ends in that no retry resolves. -/
def fixtureAccessDenied : GoError := { notFound := false, msg := "AccessDeniedException" }

/-- The fixture collaborators with a stack deployer that fails. -/
def fixtureReconcilerDeployFails (route : HTTPRoute) : HTTPRouteReconciler :=
  { fixtureReconciler route "" 1 with Deploy := fun _ => some fixtureAccessDenied }

/-- An error of the stack marshaller. -/
def fixtureMarshalError : GoError := { notFound := false, msg := "json: unsupported type" }

/-- The fixture collaborators with a stack marshaller that fails. -/
def fixtureReconcilerMarshalFails (route : HTTPRoute) : HTTPRouteReconciler :=
  { fixtureReconciler route "dns1" 1 with Marshal := fun _ => ("", some fixtureMarshalError) }

/-- The fixture route declared in namespace `team-a`. -/
def fixtureRouteTeamA : HTTPRoute :=
  { fixtureRoute with Namespace := "team-a" }

/-- Collaborators over an object store that holds Gateway `mesh1` in namespace
`team-a` and no Gateway in namespace `default`. -/
def fixtureReconcilerTeamA : HTTPRouteReconciler :=
  { fixtureReconciler fixtureRouteTeamA "" 1 with
    gwReconcilerGet := fun n =>
      if n = { Namespace := "team-a", Name := "mesh1" } then Except.ok fixtureGateway
      else Except.error { notFound := true, msg := "not found" } }

/-- The Gateway event handler over the object store of a reconciler, the store
listing the given routes. -/
def fixtureHandler (r : HTTPRouteReconciler) (items : List HTTPRoute) :
    enqueueRequestsForGatewayEvent :=
  { clientList := items,
    clientGetGateway := r.gwReconcilerGet,
    clientGetGatewayClass := r.gwClassReconcilerGet }

/-! ## Fixtures for runs over several listeners -/

/-- A Gateway listener without TLS block. -/
def fixtureListenerPlain : GatewayListener :=
  { Name := "plain", Port := 8080, Protocol := "HTTP", TLS := none }

/-- A Gateway with the TLS-terminating listener `http` and the listener `plain`. -/
def fixtureGatewayTwoListeners : Gateway :=
  { GatewayClassName := "amazon-vpc-lattice",
    Listeners := [fixtureListener, fixtureListenerPlain] }

/-- A Gateway with the listener `plain` alone. -/
def fixtureGatewayPlain : Gateway :=
  { GatewayClassName := "amazon-vpc-lattice", Listeners := [fixtureListenerPlain] }

/-- The fixture route with a parent reference that names no section, so that every
listener of the Gateway is selected. -/
def fixtureRouteNoSection : HTTPRoute :=
  { fixtureRoute with
    ParentRefs := [{ Group := none, Kind := none, Namespace := none, Name := "mesh1",
                     SectionName := none }] }

/-- The build task over the Gateway with two listeners, on a new stack and a
service without certificate. -/
def fixtureTaskTwoListeners : latticeServiceModelBuildTask :=
  { fixtureTask fixtureRouteNoSection with
    ClientGet := fun _ => Except.ok fixtureGatewayTwoListeners }

/-- The build task over the Gateway with the listener `plain` alone, entered with
a service that already carries a certificate. -/
def fixtureTaskStaleCert : latticeServiceModelBuildTask :=
  { fixtureTask fixtureRouteNoSection with
    ClientGet := fun _ => Except.ok fixtureGatewayPlain,
    latticeService :=
      { Spec := { Name := "", Namespace := "", CustomerCertARN := "stale-cert" } } }

/-- The fixture route with a parent status whose first condition holds the zero
instant read in the local location: a time that `IsZero` and yet is not `==` to
`ZeroTransitionTime`, the location pointer being non-nil. -/
def fixtureRouteZeroInstant : HTTPRoute :=
  { fixtureRoute with
    Parents := [{ ParentRef := ParentReference.zero, ControllerName := "",
                  Conditions := [{ Condition.zero with
                                   LastTransitionTime := fixtureStoredTime 0 }] }] }

/-! ## Properties of the relevance filter and of `reconcile` -/

/-- No call of `buildAndDeployModel` touches a finalizer. -/
theorem buildAndDeployModel_no_RemoveFinalizers (r : HTTPRouteReconciler) (httproute : HTTPRoute)
    (obj : HTTPRoute) (finalizer : String) :
    Effect.RemoveFinalizers obj finalizer ∉ (buildAndDeployModel r httproute).effects := by
  unfold buildAndDeployModel
  split
  · simp
  · split
    · simp [errorsAsRetryErr]
    · simp

/-- The namespace a Gateway is looked up in: the parent reference's, else the route's. -/
theorem gwNamespace_eq_getD (ns : Option String) (d : String) :
    (match ns with
      | some v => v
      | none => d) = ns.getD d := by
  cases ns <;> rfl

/-- C1: `isHTTPRouteRelevant` answers true exactly when the route has a first
parent reference, the Gateway it names (in the reference's namespace when given,
the route's own otherwise) is found, the GatewayClass named by that Gateway is
found, and the class's controller name is `config.LatticeGatewayControllerName`;
in every other case it answers false. -/
theorem isHTTPRouteRelevant_iff (config : Config) (r : HTTPRouteReconciler)
    (httpRoute : HTTPRoute) :
    isHTTPRouteRelevant config r httpRoute = true ↔
      ∃ parentRef0 rest gw gwClass,
        httpRoute.ParentRefs = parentRef0 :: rest ∧
        r.gwReconcilerGet
          { Namespace := parentRef0.Namespace.getD httpRoute.Namespace,
            Name := parentRef0.Name } = Except.ok gw ∧
        r.gwClassReconcilerGet
          { Namespace := "default", Name := gw.GatewayClassName } = Except.ok gwClass ∧
        gwClass.ControllerName = config.LatticeGatewayControllerName := by
  unfold isHTTPRouteRelevant
  constructor
  · intro h
    cases hp : httpRoute.ParentRefs with
    | nil => simp [hp] at h
    | cons parentRef0 rest =>
      simp only [hp, gwNamespace_eq_getD] at h
      cases hg : r.gwReconcilerGet
          { Namespace := parentRef0.Namespace.getD httpRoute.Namespace,
            Name := parentRef0.Name } with
      | error e => simp [hg] at h
      | ok gw =>
        simp only [hg] at h
        cases hc : r.gwClassReconcilerGet
            { Namespace := "default", Name := gw.GatewayClassName } with
        | error e => simp [hc] at h
        | ok gwClass =>
          simp only [hc] at h
          refine ⟨parentRef0, rest, gw, gwClass, rfl, hg, hc, ?_⟩
          by_cases hn : gwClass.ControllerName = config.LatticeGatewayControllerName
          · exact hn
          · simp [hn] at h
  · rintro ⟨parentRef0, rest, gw, gwClass, hp, hg, hc, hn⟩
    simp only [hp, gwNamespace_eq_getD, hg, hc, hn, if_true]

/-- C2: a route the relevance filter rejects, and so every route without parent
reference, makes `reconcile` return nil without any effect: no event, no
finalizer change, no `Build`, `Marshal` or `Deploy`, no patch. -/
theorem reconcile_irrelevant_no_effect (config : Config) (r : HTTPRouteReconciler)
    (req : NamespacedName) (httpRoute : HTTPRoute)
    (hget : r.ClientGet req = Except.ok httpRoute)
    (hrej : httpRoute.ParentRefs = [] ∨ isHTTPRouteRelevant config r httpRoute = false) :
    isHTTPRouteRelevant config r httpRoute = false ∧
    reconcile config r req = { completion := Completion.returned none, effects := [] } := by
  have hrel : isHTTPRouteRelevant config r httpRoute = false := by
    rcases hrej with h | h
    · unfold isHTTPRouteRelevant
      rw [h]
    · exact h
  refine ⟨hrel, ?_⟩
  unfold reconcile
  rw [hget]
  simp [hrel]

/-- Witness of C2: the route of the "no parentref" test case. -/
theorem reconcile_irrelevant_no_effect_witness :
    isHTTPRouteRelevant fixtureConfig (fixtureReconciler fixtureRouteNoParent "" 1)
        fixtureRouteNoParent = false ∧
    reconcile fixtureConfig (fixtureReconciler fixtureRouteNoParent "" 1)
        { Namespace := "default", Name := "service1" } =
      { completion := Completion.returned none, effects := [] } :=
  reconcile_irrelevant_no_effect fixtureConfig (fixtureReconciler fixtureRouteNoParent "" 1)
    { Namespace := "default", Name := "service1" } fixtureRouteNoParent rfl (Or.inl rfl)

/-- C3: when `Build` fails with `e`, `buildAndDeployModel` returns `(nil, nil, e)`;
after the `Build` call its only effect is one Warning event with reason
`FailedBuildModel`, so the stack is neither marshalled nor deployed. -/
theorem buildAndDeployModel_build_error (r : HTTPRouteReconciler) (httproute : HTTPRoute)
    (e : GoError) (hbuild : r.Build httproute = Except.error e) :
    (buildAndDeployModel r httproute).stack = none ∧
    (buildAndDeployModel r httproute).latticeService = none ∧
    (buildAndDeployModel r httproute).err = some e ∧
    (buildAndDeployModel r httproute).effects =
      [Effect.Build httproute,
       Effect.Event httproute EventType.EventTypeWarning
         EventReason.HTTPRouteEventReasonFailedBuildModel
         ("Failed build model due to " ++ e.msg)] ∧
    (∀ stack, Effect.Deploy stack ∉ (buildAndDeployModel r httproute).effects) ∧
    (∀ stack, Effect.Marshal stack ∉ (buildAndDeployModel r httproute).effects) := by
  unfold buildAndDeployModel
  rw [hbuild]
  simp

/-- Witness of C3: the fixture route against a failing model builder. -/
theorem buildAndDeployModel_build_error_witness :
    (buildAndDeployModel (fixtureReconcilerBuildFails fixtureRoute) fixtureRoute).err =
      some fixtureError :=
  (buildAndDeployModel_build_error (fixtureReconcilerBuildFails fixtureRoute) fixtureRoute
    fixtureError rfl).2.2.1

/-- C10: for a relevant route whose deletion timestamp is set, `reconcile` calls
`RemoveFinalizers` exactly when `cleanupHTTPRouteResources` returned no error;
when cleanup returns an error `e`, `reconcile` returns `e` and no finalizer is
removed. -/
theorem reconcile_deleting_finalizer (config : Config) (r : HTTPRouteReconciler)
    (req : NamespacedName) (httpRoute : HTTPRoute)
    (hget : r.ClientGet req = Except.ok httpRoute)
    (hrel : isHTTPRouteRelevant config r httpRoute = true)
    (hdel : DeletionTimestampIsZero httpRoute.DeletionTimestamp = false) :
    ((∃ obj finalizer, Effect.RemoveFinalizers obj finalizer ∈ (reconcile config r req).effects) ↔
      (cleanupHTTPRouteResources r httpRoute).err = none) ∧
    ((cleanupHTTPRouteResources r httpRoute).err = none →
      (reconcile config r req).completion = Completion.returned none ∧
      Effect.RemoveFinalizers httpRoute httpRouteFinalizer ∈ (reconcile config r req).effects) ∧
    (∀ e, (cleanupHTTPRouteResources r httpRoute).err = some e →
      (reconcile config r req).completion = Completion.returned (some e) ∧
      ∀ obj finalizer, Effect.RemoveFinalizers obj finalizer ∉ (reconcile config r req).effects) := by
  have hno := buildAndDeployModel_no_RemoveFinalizers r httpRoute
  unfold reconcile
  rw [hget]
  simp only [hrel, hdel, Bool.not_true, Bool.not_false, Bool.false_eq_true, if_false, if_true]
  unfold cleanupHTTPRouteResources
  cases herr : (buildAndDeployModel r httpRoute).err with
  | none =>
    simp only [List.cons_append, List.mem_cons, List.mem_append, reduceCtorEq, false_or,
      Effect.RemoveFinalizers.injEq, true_and, List.mem_singleton, or_false, false_and,
      and_true, or_true, List.not_mem_nil, IsEmpty.forall_iff, implies_true, iff_true,
      forall_const]
    exact ⟨httpRoute, httpRouteFinalizer, Or.inr ⟨rfl, rfl⟩⟩
  | some e =>
    simp only [List.mem_cons, reduceCtorEq, false_or, iff_false, not_exists, false_implies,
      Option.some.injEq, true_and, IsEmpty.forall_iff]
    refine ⟨fun obj finalizer => hno obj finalizer, ?_⟩
    intro e1 he1
    subst he1
    exact ⟨rfl, fun obj finalizer => hno obj finalizer⟩

/-- Witness of C10: the fixture route under deletion, with cleanup succeeding. -/
theorem reconcile_deleting_finalizer_witness :
    (reconcile fixtureConfig (fixtureReconciler fixtureRouteDeleting "" 1)
        { Namespace := "default", Name := "service1" }).completion =
      Completion.returned none ∧
    Effect.RemoveFinalizers fixtureRouteDeleting httpRouteFinalizer ∈
      (reconcile fixtureConfig (fixtureReconciler fixtureRouteDeleting "" 1)
        { Namespace := "default", Name := "service1" }).effects :=
  (reconcile_deleting_finalizer fixtureConfig (fixtureReconciler fixtureRouteDeleting "" 1)
    { Namespace := "default", Name := "service1" } fixtureRouteDeleting rfl (by decide)
    rfl).2.1 rfl

/-! ## Properties of `updateHTTPRouteStatus` -/

/-- Reading a key back after the assignment `m[k] = v`. -/
theorem mapGet_mapSet (m : List (String × String)) (k v : String) :
    mapGet (mapSet m k v) k = some v := by
  induction m with
  | nil => simp [mapSet, mapGet]
  | cons kv rest ih =>
    obtain ⟨k1, v1⟩ := kv
    by_cases h : k1 = k
    · simp [mapSet, mapGet, h]
    · simp [mapSet, mapGet, h, ih]

/-- The route `updateHTTPRouteStatus` leaves when it finds no parent status and
the annotation patch succeeds. -/
theorem updateHTTPRouteStatus_fresh (config : Config) (r : HTTPRouteReconciler) (dns : String)
    (httproute : HTTPRoute) (parentRef0 : ParentReference) (rest : List ParentReference)
    (hpatch : ∀ obj old, r.ClientPatch obj old = none)
    (hrefs : httproute.ParentRefs = parentRef0 :: rest)
    (hparents : httproute.Parents = []) :
    (updateHTTPRouteStatus config r dns httproute).httproute =
      { httproute with
        Annotations := mapSet httproute.Annotations LatticeAssignedDomainName dns,
        Parents := [{ ParentRef := { ParentReference.zero with
                                     Group := parentRef0.Group, Kind := parentRef0.Kind,
                                     Name := parentRef0.Name },
                      ControllerName := config.LatticeGatewayControllerName,
                      Conditions := [{ Type_ := RouteConditionAccepted,
                                       Status := ConditionStatus.ConditionTrue,
                                       ObservedGeneration := httproute.Generation,
                                       LastTransitionTime := r.Now,
                                       Reason := RouteReasonAccepted,
                                       Message := "DNS Name: " ++ dns }] }] } ∧
    ((∀ obj old, r.ClientStatusPatch obj old = none) →
      (updateHTTPRouteStatus config r dns httproute).completion = Completion.returned none) := by
  obtain ⟨n, ns, g, d, a, p, ru, pa⟩ := httproute
  simp only at hrefs hparents
  subst hrefs hparents
  cases a with
  | nil =>
    simp only [updateHTTPRouteStatus, hpatch, List.length_nil, if_true, Condition.zero]
    constructor
    · cases hs : r.ClientStatusPatch _ _ <;> simp [hs]
    · intro hst
      simp [hst]
  | cons x xs =>
    simp only [updateHTTPRouteStatus, hpatch, List.length_nil, List.length_cons, if_true,
      Condition.zero, Nat.succ_ne_zero, if_false]
    constructor
    · cases hs : r.ClientStatusPatch _ _ <;> simp [hs]
    · intro hst
      simp [hst]

/-- The route `updateHTTPRouteStatus` leaves when it finds a parent status with a
first condition and the annotation patch succeeds. -/
theorem updateHTTPRouteStatus_existing (config : Config) (r : HTTPRouteReconciler)
    (dns : String) (httproute : HTTPRoute) (parentRef0 : ParentReference)
    (rest : List ParentReference) (parent0 : RouteParentStatus)
    (parents : List RouteParentStatus) (cond0 : Condition) (conds : List Condition)
    (hpatch : ∀ obj old, r.ClientPatch obj old = none)
    (hrefs : httproute.ParentRefs = parentRef0 :: rest)
    (hparents : httproute.Parents = parent0 :: parents)
    (hconds : parent0.Conditions = cond0 :: conds) :
    (updateHTTPRouteStatus config r dns httproute).httproute =
      { httproute with
        Annotations := mapSet httproute.Annotations LatticeAssignedDomainName dns,
        Parents := { ParentRef := { parent0.ParentRef with
                                    Group := parentRef0.Group, Kind := parentRef0.Kind,
                                    Name := parentRef0.Name },
                     ControllerName := config.LatticeGatewayControllerName,
                     Conditions := { Type_ := RouteConditionAccepted,
                                     Status := ConditionStatus.ConditionTrue,
                                     ObservedGeneration := httproute.Generation,
                                     LastTransitionTime :=
                                       if cond0.LastTransitionTime = ZeroTransitionTime then r.Now
                                       else cond0.LastTransitionTime,
                                     Reason := RouteReasonAccepted,
                                     Message := "DNS Name: " ++ dns } :: conds } :: parents } ∧
    ((∀ obj old, r.ClientStatusPatch obj old = none) →
      (updateHTTPRouteStatus config r dns httproute).completion = Completion.returned none) := by
  obtain ⟨n, ns, g, d, a, p, ru, pa⟩ := httproute
  obtain ⟨pr, cn, cs⟩ := parent0
  simp only at hrefs hparents hconds
  subst hrefs hparents hconds
  by_cases hz : cond0.LastTransitionTime = ZeroTransitionTime
  · cases a with
    | nil =>
      simp only [updateHTTPRouteStatus, hpatch, List.length_nil, List.length_cons, if_true,
        Nat.succ_ne_zero, if_false, hz]
      constructor
      · cases hs : r.ClientStatusPatch _ _ <;> simp [hs]
      · intro hst
        simp [hst]
    | cons x xs =>
      simp only [updateHTTPRouteStatus, hpatch, List.length_nil, List.length_cons, if_true,
        Nat.succ_ne_zero, if_false, hz]
      constructor
      · cases hs : r.ClientStatusPatch _ _ <;> simp [hs]
      · intro hst
        simp [hst]
  · cases a with
    | nil =>
      simp only [updateHTTPRouteStatus, hpatch, List.length_nil, List.length_cons, if_true,
        Nat.succ_ne_zero, if_false, hz]
      constructor
      · cases hs : r.ClientStatusPatch _ _ <;> simp [hs]
      · intro hst
        simp [hst]
    | cons x xs =>
      simp only [updateHTTPRouteStatus, hpatch, List.length_nil, List.length_cons, if_true,
        Nat.succ_ne_zero, if_false, hz]
      constructor
      · cases hs : r.ClientStatusPatch _ _ <;> simp [hs]
      · intro hst
        simp [hst]


/-- C8, counterexample: a route with one parent reference whose first parent
status has an empty `Conditions` slice. Both patches would succeed, yet the call
panics on `Conditions[0]` (line 300) instead of returning nil. -/
theorem updateHTTPRouteStatus_empty_conditions_panics :
    fixtureRouteEmptyConditions.ParentRefs ≠ [] ∧
    (∀ obj old,
      (fixtureReconciler fixtureRouteEmptyConditions "dns1" 9).ClientPatch obj old = none) ∧
    (∀ obj old,
      (fixtureReconciler fixtureRouteEmptyConditions "dns1" 9).ClientStatusPatch obj old = none) ∧
    (updateHTTPRouteStatus fixtureConfig (fixtureReconciler fixtureRouteEmptyConditions "dns1" 9)
      "dns1" fixtureRouteEmptyConditions).completion = Completion.panicked indexOutOfRange ∧
    (updateHTTPRouteStatus fixtureConfig (fixtureReconciler fixtureRouteEmptyConditions "dns1" 9)
      "dns1" fixtureRouteEmptyConditions).completion ≠ Completion.returned none := by
  refine ⟨by decide, fun _ _ => rfl, fun _ _ => rfl, rfl, ?_⟩
  intro h
  have hp : (updateHTTPRouteStatus fixtureConfig
      (fixtureReconciler fixtureRouteEmptyConditions "dns1" 9)
      "dns1" fixtureRouteEmptyConditions).completion = Completion.panicked indexOutOfRange := rfl
  rw [hp] at h
  cases h

/-- C8, amended: for a route with at least one parent reference whose
`Status.Parents` is empty or starts with an entry that has a first condition, and
for every DNS string, when both patches succeed `updateHTTPRouteStatus` returns
nil and leaves the route with annotation `LatticeAssignedDomainName` equal to
the DNS string and with `Status.Parents[0].Conditions[0]` of type Accepted, status
True, reason Accepted, message "DNS Name: " followed by the DNS string, and
observed generation equal to the route's generation. -/
theorem updateHTTPRouteStatus_projects (config : Config) (r : HTTPRouteReconciler)
    (dns : String) (httproute : HTTPRoute)
    (hrefs : httproute.ParentRefs ≠ [])
    (hshape : httproute.Parents = [] ∨
      ∃ parent0 parents cond0 conds,
        httproute.Parents = parent0 :: parents ∧ parent0.Conditions = cond0 :: conds)
    (hpatch : ∀ obj old, r.ClientPatch obj old = none)
    (hstatus : ∀ obj old, r.ClientStatusPatch obj old = none) :
    (updateHTTPRouteStatus config r dns httproute).completion = Completion.returned none ∧
    mapGet (updateHTTPRouteStatus config r dns httproute).httproute.Annotations
      LatticeAssignedDomainName = some dns ∧
    ∃ parent0 parents cond0 conds,
      (updateHTTPRouteStatus config r dns httproute).httproute.Parents = parent0 :: parents ∧
      parent0.Conditions = cond0 :: conds ∧
      cond0.Type_ = "Accepted" ∧
      cond0.Status = ConditionStatus.ConditionTrue ∧
      cond0.Reason = "Accepted" ∧
      cond0.Message = "DNS Name: " ++ dns ∧
      cond0.ObservedGeneration = httproute.Generation := by
  obtain ⟨parentRef0, rest, hrefs1⟩ := List.exists_cons_of_ne_nil hrefs
  rcases hshape with hnil | ⟨parent0, parents, cond0, conds, hparents, hconds⟩
  · obtain ⟨hroute, hdone⟩ :=
      updateHTTPRouteStatus_fresh config r dns httproute parentRef0 rest hpatch hrefs1 hnil
    refine ⟨hdone hstatus, ?_, ?_⟩
    · rw [hroute]
      exact mapGet_mapSet _ _ _
    · rw [hroute]
      exact ⟨_, _, _, _, rfl, rfl, rfl, rfl, rfl, rfl, rfl⟩
  · obtain ⟨hroute, hdone⟩ :=
      updateHTTPRouteStatus_existing config r dns httproute parentRef0 rest parent0 parents
        cond0 conds hpatch hrefs1 hparents hconds
    refine ⟨hdone hstatus, ?_, ?_⟩
    · rw [hroute]
      exact mapGet_mapSet _ _ _
    · rw [hroute]
      exact ⟨_, _, _, _, rfl, rfl, rfl, rfl, rfl, rfl, rfl⟩

/-- Witness of C8: the fixture route, which has no parent status yet. -/
theorem updateHTTPRouteStatus_projects_witness :
    (updateHTTPRouteStatus fixtureConfig (fixtureReconciler fixtureRoute "dns1" 9) "dns1"
      fixtureRoute).completion = Completion.returned none ∧
    mapGet (updateHTTPRouteStatus fixtureConfig (fixtureReconciler fixtureRoute "dns1" 9) "dns1"
      fixtureRoute).httproute.Annotations LatticeAssignedDomainName = some "dns1" :=
  ⟨(updateHTTPRouteStatus_projects fixtureConfig (fixtureReconciler fixtureRoute "dns1" 9)
      "dns1" fixtureRoute (by decide) (Or.inl rfl) (fun _ _ => rfl) (fun _ _ => rfl)).1,
   (updateHTTPRouteStatus_projects fixtureConfig (fixtureReconciler fixtureRoute "dns1" 9)
      "dns1" fixtureRoute (by decide) (Or.inl rfl) (fun _ _ => rfl) (fun _ _ => rfl)).2.1⟩

/-- One run of `updateHTTPRouteStatus` on the first transition time: a route without
parent status gets the current time, a route with a first condition keeps its time
unless that is `ZeroTransitionTime`; the parent references stay as they are. -/
theorem updateHTTPRouteStatus_transition_step (config : Config) (r : HTTPRouteReconciler)
    (dns : String) (httproute : HTTPRoute)
    (hrefs : httproute.ParentRefs ≠ [])
    (hpatch : ∀ obj old, r.ClientPatch obj old = none) :
    (httproute.Parents = [] →
      firstTransitionTime (updateHTTPRouteStatus config r dns httproute).httproute =
        some r.Now) ∧
    (∀ t, firstTransitionTime httproute = some t →
      firstTransitionTime (updateHTTPRouteStatus config r dns httproute).httproute =
        some (if t = ZeroTransitionTime then r.Now else t)) ∧
    ((httproute.Parents = [] ∨ ∃ t, firstTransitionTime httproute = some t) →
      (updateHTTPRouteStatus config r dns httproute).httproute.ParentRefs =
        httproute.ParentRefs) := by
  obtain ⟨parentRef0, rest, hrefs1⟩ := List.exists_cons_of_ne_nil hrefs
  have hex : ∀ t, firstTransitionTime httproute = some t →
      ∃ parent0 parents cond0 conds, httproute.Parents = parent0 :: parents ∧
        parent0.Conditions = cond0 :: conds ∧ cond0.LastTransitionTime = t := by
    intro t ht
    unfold firstTransitionTime firstCondition at ht
    cases hp : httproute.Parents with
    | nil => simp [hp] at ht
    | cons parent0 parents =>
      cases hc : parent0.Conditions with
      | nil => simp [hp, hc] at ht
      | cons cond0 conds =>
        simp only [hp, hc, Option.map_some', Option.some.injEq] at ht
        exact ⟨parent0, parents, cond0, conds, rfl, hc, ht⟩
  refine ⟨?_, ?_, ?_⟩
  · intro hnil
    rw [(updateHTTPRouteStatus_fresh config r dns httproute parentRef0 rest hpatch hrefs1
      hnil).1]
    rfl
  · intro t ht
    obtain ⟨parent0, parents, cond0, conds, hparents, hconds, hlt⟩ := hex t ht
    rw [(updateHTTPRouteStatus_existing config r dns httproute parentRef0 rest parent0 parents
      cond0 conds hpatch hrefs1 hparents hconds).1]
    simp [firstTransitionTime, firstCondition, hlt]
  · rintro (hnil | ⟨t, ht⟩)
    · rw [(updateHTTPRouteStatus_fresh config r dns httproute parentRef0 rest hpatch hrefs1
        hnil).1]
    · obtain ⟨parent0, parents, cond0, conds, hparents, hconds, _⟩ := hex t ht
      rw [(updateHTTPRouteStatus_existing config r dns httproute parentRef0 rest parent0 parents
        cond0 conds hpatch hrefs1 hparents hconds).1]

/-- C9: latching of `LastTransitionTime` in `updateHTTPRouteStatus`, the clock
being the collaborator `Now`. When the route has no parent status yet, or its
`Conditions[0].LastTransitionTime` is `ZeroTransitionTime` (equal to it as Go's
`==` compares the two structs, field by field), the time becomes the current
time; when it holds another value it is left as it is. So of two runs in a row,
at `r1.Now` and then at `r2.Now`, the second leaves the time as the first left
it, which is `r1.Now` for a route that starts unset; a reading of the clock is
never the zero `time.Time`. -/
theorem updateHTTPRouteStatus_latches (config : Config) (r1 r2 : HTTPRouteReconciler)
    (dns1 dns2 : String) (httproute : HTTPRoute)
    (hrefs : httproute.ParentRefs ≠ [])
    (hpatch1 : ∀ obj old, r1.ClientPatch obj old = none)
    (hpatch2 : ∀ obj old, r2.ClientPatch obj old = none) :
    ((httproute.Parents = [] ∨ firstTransitionTime httproute = some ZeroTransitionTime) →
      firstTransitionTime (updateHTTPRouteStatus config r1 dns1 httproute).httproute =
        some r1.Now) ∧
    (∀ t, firstTransitionTime httproute = some t → t ≠ ZeroTransitionTime →
      firstTransitionTime (updateHTTPRouteStatus config r1 dns1 httproute).httproute = some t) ∧
    ((httproute.Parents = [] ∨ firstTransitionTime httproute = some ZeroTransitionTime) →
      r1.Now ≠ ZeroTransitionTime →
      firstTransitionTime
        (updateHTTPRouteStatus config r2 dns2
          (updateHTTPRouteStatus config r1 dns1 httproute).httproute).httproute =
        some r1.Now) ∧
    ((httproute.Parents = [] ∨ ∃ t, firstTransitionTime httproute = some t) →
      r1.Now ≠ ZeroTransitionTime →
      firstTransitionTime
        (updateHTTPRouteStatus config r2 dns2
          (updateHTTPRouteStatus config r1 dns1 httproute).httproute).httproute =
        firstTransitionTime (updateHTTPRouteStatus config r1 dns1 httproute).httproute) := by
  have h1 := updateHTTPRouteStatus_transition_step config r1 dns1 httproute hrefs hpatch1
  have hfirst : (httproute.Parents = [] ∨
      firstTransitionTime httproute = some ZeroTransitionTime) →
      firstTransitionTime (updateHTTPRouteStatus config r1 dns1 httproute).httproute =
        some r1.Now := by
    rintro (hnil | hz)
    · exact h1.1 hnil
    · have := h1.2.1 ZeroTransitionTime hz
      simpa using this
  have hsecond : ∀ t,
      firstTransitionTime (updateHTTPRouteStatus config r1 dns1 httproute).httproute = some t →
      (httproute.Parents = [] ∨ ∃ t0, firstTransitionTime httproute = some t0) →
      t ≠ ZeroTransitionTime →
      firstTransitionTime
        (updateHTTPRouteStatus config r2 dns2
          (updateHTTPRouteStatus config r1 dns1 httproute).httproute).httproute = some t := by
    intro t ht hshape hne
    have hrefs2 : (updateHTTPRouteStatus config r1 dns1 httproute).httproute.ParentRefs ≠ [] := by
      rw [h1.2.2 hshape]
      exact hrefs
    have h2 := updateHTTPRouteStatus_transition_step config r2 dns2
      (updateHTTPRouteStatus config r1 dns1 httproute).httproute hrefs2 hpatch2
    have := h2.2.1 t ht
    simpa [hne] using this
  refine ⟨hfirst, ?_, ?_, ?_⟩
  · intro t ht hne
    have := h1.2.1 t ht
    simpa [hne] using this
  · intro hunset hnow
    exact hsecond r1.Now (hfirst hunset) (hunset.imp id fun hz => ⟨_, hz⟩) hnow
  · intro hshape hnow
    rcases hshape with hnil | ⟨t0, ht0⟩
    · rw [h1.1 hnil]
      exact hsecond r1.Now (h1.1 hnil) (Or.inl hnil) hnow
    · have hrun := h1.2.1 t0 ht0
      rw [hrun]
      refine hsecond _ hrun (Or.inr ⟨t0, ht0⟩) ?_
      by_cases hz : t0 = ZeroTransitionTime
      · simpa [hz] using hnow
      · simp [hz]

/-- Witness of C9: the fixture route, without parent status, projected at clock
reading 10 and again at reading 20, keeps reading 10; and a stored zero instant
that carries a location, not being the sentinel, is kept. -/
theorem updateHTTPRouteStatus_latches_witness :
    firstTransitionTime
      (updateHTTPRouteStatus fixtureConfig (fixtureReconciler fixtureRoute "dns1" 20) "dns1"
        (updateHTTPRouteStatus fixtureConfig (fixtureReconciler fixtureRoute "dns1" 10) "dns1"
          fixtureRoute).httproute).httproute = some (fixtureClock 10) ∧
    firstTransitionTime
      (updateHTTPRouteStatus fixtureConfig (fixtureReconciler fixtureRoute "dns1" 10) "dns1"
        fixtureRouteZeroInstant).httproute = some (fixtureStoredTime 0) :=
  ⟨(updateHTTPRouteStatus_latches fixtureConfig (fixtureReconciler fixtureRoute "dns1" 10)
      (fixtureReconciler fixtureRoute "dns1" 20) "dns1" "dns1" fixtureRoute (by decide)
      (fun _ _ => rfl) (fun _ _ => rfl)).2.2.1 (Or.inl rfl) (by decide),
   (updateHTTPRouteStatus_latches fixtureConfig (fixtureReconciler fixtureRoute "dns1" 10)
      (fixtureReconciler fixtureRoute "dns1" 20) "dns1" "dns1" fixtureRouteZeroInstant
      (by decide) (fun _ _ => rfl) (fun _ _ => rfl)).2.1 (fixtureStoredTime 0) rfl
      (by decide)⟩

/-! ## Properties of the listener build -/

/-- A resource put into a resource list is in it afterwards. -/
theorem mem_putResource_self (rs : List Resource) (r : Resource) : r ∈ putResource rs r := by
  induction rs with
  | nil => simp [putResource]
  | cons x rest ih =>
    unfold putResource
    split
    · simp
    · simp [ih]

/-- What a resource list holds after a put was there before or is the resource put. -/
theorem mem_putResource (rs : List Resource) (r x : Resource) (h : x ∈ putResource rs r) :
    x ∈ rs ∨ x = r := by
  induction rs with
  | nil =>
    simp [putResource] at h
    exact Or.inr h
  | cons y rest ih =>
    unfold putResource at h
    split at h
    · rcases List.mem_cons.mp h with h1 | h1
      · exact Or.inr h1
      · exact Or.inl (List.mem_cons_of_mem _ h1)
    · rcases List.mem_cons.mp h with h1 | h1
      · exact Or.inl (h1 ▸ List.mem_cons_self _ _)
      · rcases ih h1 with h2 | h2
        · exact Or.inl (List.mem_cons_of_mem _ h2)
        · exact Or.inr h2

/-- A put keeps every resource whose key differs from the key put. -/
theorem mem_putResource_of_mem (rs : List Resource) (r x : Resource) (h : x ∈ rs) :
    x ∈ putResource rs r ∨ x.key = r.key := by
  induction rs with
  | nil => cases h
  | cons y rest ih =>
    unfold putResource
    rcases List.mem_cons.mp h with h1 | h1
    · subst h1
      split
      · rename_i hk
        exact Or.inr hk
      · exact Or.inl (List.mem_cons_self _ _)
    · split
      · exact Or.inl (List.mem_cons_of_mem _ h1)
      · rcases ih h1 with h2 | h2
        · exact Or.inl (List.mem_cons_of_mem _ h2)
        · exact Or.inr h2

/-- The listeners of a stack are its resources of kind `Listener`. -/
theorem mem_ListListeners (stack : Stack) (l : Listener) :
    l ∈ stack.ListListeners ↔ Resource.Listener l ∈ stack.resources := by
  unfold Stack.ListListeners
  rw [List.mem_filterMap]
  constructor
  · rintro ⟨x, hx, hl⟩
    cases x <;> simp at hl
    subst hl
    exact hx
  · intro h
    exact ⟨_, h, rfl⟩

/-- A listener built for a Gateway listener stays in the stack while the other
selected listeners are built. -/
theorem foldl_buildOneListener_keeps (httpRoute : HTTPRoute) (action : DefaultAction)
    (ls : List GatewayListener) (acc : Stack × Service) (l : GatewayListener)
    (h : Resource.Listener
        { Spec := { Name := httpRoute.Name, Namespace := httpRoute.Namespace, Port := l.Port,
                    Protocol := l.Protocol, DefaultAction := action } } ∈ acc.1.resources) :
    Resource.Listener
        { Spec := { Name := httpRoute.Name, Namespace := httpRoute.Namespace, Port := l.Port,
                    Protocol := l.Protocol, DefaultAction := action } } ∈
      (ls.foldl (buildOneListener httpRoute action) acc).1.resources := by
  induction ls generalizing acc with
  | nil => exact h
  | cons x xs ih =>
    rw [List.foldl_cons]
    apply ih
    simp only [buildOneListener, Stack.AddResource]
    rcases mem_putResource_of_mem acc.1.resources
        (Resource.Listener
          { Spec := { Name := httpRoute.Name, Namespace := httpRoute.Namespace, Port := x.Port,
                      Protocol := x.Protocol, DefaultAction := action } }) _ h with h1 | h1
    · exact h1
    · simp only [Resource.key, ResourceKey.Listener.injEq, true_and] at h1
      rw [h1.1, h1.2]
      exact mem_putResource_self _ _

/-- Every selected Gateway listener has its `Listener` resource in the stack once
all selected listeners are built. -/
theorem foldl_buildOneListener_mem (httpRoute : HTTPRoute) (action : DefaultAction)
    (ls : List GatewayListener) (acc : Stack × Service) (l : GatewayListener) (hl : l ∈ ls) :
    Resource.Listener
        { Spec := { Name := httpRoute.Name, Namespace := httpRoute.Namespace, Port := l.Port,
                    Protocol := l.Protocol, DefaultAction := action } } ∈
      (ls.foldl (buildOneListener httpRoute action) acc).1.resources := by
  induction ls generalizing acc with
  | nil => cases hl
  | cons x xs ih =>
    rw [List.foldl_cons]
    rcases List.mem_cons.mp hl with h1 | h1
    · subst h1
      apply foldl_buildOneListener_keeps
      simp only [buildOneListener, Stack.AddResource]
      exact mem_putResource_self _ _
    · exact ih _ h1

/-- A resource of the stack after the selected listeners are built was there
before or is a `Listener` built from the route and the default action. -/
theorem foldl_buildOneListener_new (httpRoute : HTTPRoute) (action : DefaultAction)
    (ls : List GatewayListener) (acc : Stack × Service) (x : Resource)
    (hx : x ∈ (ls.foldl (buildOneListener httpRoute action) acc).1.resources) :
    x ∈ acc.1.resources ∨
    ∃ l ∈ ls, x = Resource.Listener
        { Spec := { Name := httpRoute.Name, Namespace := httpRoute.Namespace, Port := l.Port,
                    Protocol := l.Protocol, DefaultAction := action } } := by
  induction ls generalizing acc with
  | nil => exact Or.inl hx
  | cons y ys ih =>
    rw [List.foldl_cons] at hx
    rcases ih _ hx with h1 | ⟨l, hl, h1⟩
    · simp only [buildOneListener, Stack.AddResource] at h1
      rcases mem_putResource _ _ _ h1 with h2 | h2
      · exact Or.inl h2
      · exact Or.inr ⟨y, List.mem_cons_self _ _, h2⟩
    · exact Or.inr ⟨l, List.mem_cons_of_mem _ hl, h1⟩

/-- The outcome of `buildListener` when the parent Gateway resolves and the default
action can be taken. -/
theorem buildListener_ok (task : latticeServiceModelBuildTask) (parentRef0 : ParentReference)
    (rest : List ParentReference) (gw : Gateway) (action : DefaultAction)
    (hrefs : task.httpRoute.ParentRefs = parentRef0 :: rest)
    (hgw : task.ClientGet
      { Namespace := parentRef0.Namespace.getD task.httpRoute.Namespace,
        Name := parentRef0.Name } = Except.ok gw)
    (hact : defaultActionOf task.httpRoute = Except.ok action) :
    buildListener task =
      (none,
       { task with
         stack := ((selectListeners gw parentRef0).foldl
           (buildOneListener task.httpRoute action) (task.stack, task.latticeService)).1,
         latticeService := ((selectListeners gw parentRef0).foldl
           (buildOneListener task.httpRoute action) (task.stack, task.latticeService)).2 }) := by
  unfold buildListener
  simp only [hrefs, gwNamespace_eq_getD, hgw, hact]

/-- A successful `buildListener` took a default action from the route. -/
theorem buildListener_action_of_ok (task : latticeServiceModelBuildTask)
    (hok : (buildListener task).1 = none) :
    ∃ action, defaultActionOf task.httpRoute = Except.ok action := by
  unfold buildListener at hok
  cases hr : task.httpRoute.ParentRefs with
  | nil => simp [hr] at hok
  | cons parentRef0 rest =>
    simp only [hr, gwNamespace_eq_getD] at hok
    cases hg : task.ClientGet
        { Namespace := parentRef0.Namespace.getD task.httpRoute.Namespace,
          Name := parentRef0.Name } with
    | error e => simp [hg] at hok
    | ok gw =>
      simp only [hg] at hok
      cases ha : defaultActionOf task.httpRoute with
      | error e => simp [ha] at hok
      | ok action => exact ⟨action, rfl⟩


/-- A listener of the Gateway that the parent reference names, or any listener
when the parent reference names none, is selected. -/
theorem mem_selectListeners (gw : Gateway) (parentRef : ParentReference) (l : GatewayListener)
    (hmem : l ∈ gw.Listeners)
    (hsel : parentRef.SectionName = none ∨ parentRef.SectionName = some l.Name) :
    l ∈ selectListeners gw parentRef := by
  unfold selectListeners
  rcases hsel with h | h
  · rw [h]
    exact hmem
  · rw [h]
    simp [List.mem_filter, hmem]

/-- The default action taken from a route whose first rule has a first backend
reference. -/
theorem defaultActionOf_first (httpRoute : HTTPRoute) (rule0 : HTTPRouteRule)
    (rules : List HTTPRouteRule) (backendRef0 : BackendRef) (backendRefs : List BackendRef)
    (action : DefaultAction)
    (hrules : httpRoute.Rules = rule0 :: rules)
    (hbackends : rule0.BackendRefs = backendRef0 :: backendRefs)
    (hact : defaultActionOf httpRoute = Except.ok action) :
    action.BackendServiceName = backendRef0.Name ∧
    action.BackendServiceNamespace = backendRef0.Namespace.getD httpRoute.Namespace ∧
    (action.Is_Import = true ↔ backendRef0.Kind = some "ServiceImport") ∧
    (backendRef0.Kind = some "Service" → action.Is_Import = false) := by
  unfold defaultActionOf at hact
  simp only [hrules, hbackends, gwNamespace_eq_getD] at hact
  by_cases h1 : backendRef0.Kind = some "Service"
  · rw [if_pos h1] at hact
    cases hact
    simp [h1]
  · rw [if_neg h1] at hact
    by_cases h2 : backendRef0.Kind = some "ServiceImport"
    · rw [if_pos h2] at hact
      cases hact
      simp [h2]
    · rw [if_neg h2] at hact
      cases hact

/-- C4: for a route whose parent Gateway resolves and every Gateway listener
selected for it (named by the parent reference's section name, or any listener
when no section is named), a successful `buildListener` leaves in the stack a
`Listener` resource whose port and protocol are the Gateway listener's and whose
name and namespace are the route's. -/
theorem buildListener_listener_fields (task : latticeServiceModelBuildTask)
    (parentRef0 : ParentReference) (rest : List ParentReference) (gw : Gateway)
    (l : GatewayListener)
    (hrefs : task.httpRoute.ParentRefs = parentRef0 :: rest)
    (hgw : task.ClientGet
      { Namespace := parentRef0.Namespace.getD task.httpRoute.Namespace,
        Name := parentRef0.Name } = Except.ok gw)
    (hmem : l ∈ gw.Listeners)
    (hsel : parentRef0.SectionName = none ∨ parentRef0.SectionName = some l.Name)
    (hok : (buildListener task).1 = none) :
    ∃ res ∈ (buildListener task).2.stack.ListListeners,
      res.Spec.Port = l.Port ∧ res.Spec.Protocol = l.Protocol ∧
      res.Spec.Name = task.httpRoute.Name ∧ res.Spec.Namespace = task.httpRoute.Namespace := by
  obtain ⟨action, hact⟩ := buildListener_action_of_ok task hok
  rw [buildListener_ok task parentRef0 rest gw action hrefs hgw hact]
  refine ⟨{ Spec := { Name := task.httpRoute.Name, Namespace := task.httpRoute.Namespace,
                      Port := l.Port, Protocol := l.Protocol, DefaultAction := action } },
    ?_, rfl, rfl, rfl, rfl⟩
  rw [mem_ListListeners]
  exact foldl_buildOneListener_mem task.httpRoute action _ _ l
    (mem_selectListeners gw parentRef0 l hmem hsel)

/-- Witness of C4: the route and Gateway of the test, listener `http` on port 80. -/
theorem buildListener_listener_fields_witness :
    ∃ res ∈ (buildListener (fixtureTask fixtureRoute)).2.stack.ListListeners,
      res.Spec.Port = 80 ∧ res.Spec.Protocol = "HTTP" ∧
      res.Spec.Name = "service1" ∧ res.Spec.Namespace = "default" :=
  buildListener_listener_fields (fixtureTask fixtureRoute)
    { Group := none, Kind := none, Namespace := none, Name := "mesh1",
      SectionName := some "http" } [] fixtureGateway fixtureListener rfl rfl
    (List.mem_singleton.mpr rfl) (Or.inr rfl) rfl

/-- C5, counterexample: two successful `buildListener` runs in which a selected
Gateway listener has no TLS block and the service's `CustomerCertARN` is not the
empty string. In the first the parent reference names no section, both listeners
of the Gateway are selected, and the certificate of listener `http` stays on the
service although listener `plain` is selected too. In the second the only
selected listener is `plain` and the certificate the service came with is kept. -/
theorem buildListener_certificate_not_empty :
    ((buildListener fixtureTaskTwoListeners).1 = none ∧
      fixtureListenerPlain ∈
        selectListeners fixtureGatewayTwoListeners
          { Group := none, Kind := none, Namespace := none, Name := "mesh1",
            SectionName := none } ∧
      fixtureListenerPlain.TLS = none ∧
      (buildListener fixtureTaskTwoListeners).2.latticeService.Spec.CustomerCertARN =
        "test-cert-ARN" ∧
      (buildListener fixtureTaskTwoListeners).2.latticeService.Spec.CustomerCertARN ≠ "") ∧
    ((buildListener fixtureTaskStaleCert).1 = none ∧
      selectListeners fixtureGatewayPlain
          { Group := none, Kind := none, Namespace := none, Name := "mesh1",
            SectionName := none } = [fixtureListenerPlain] ∧
      fixtureListenerPlain.TLS = none ∧
      (buildListener fixtureTaskStaleCert).2.latticeService.Spec.CustomerCertARN =
        "stale-cert" ∧
      (buildListener fixtureTaskStaleCert).2.latticeService.Spec.CustomerCertARN ≠ "") := by
  refine ⟨⟨rfl, ?_, rfl, rfl, ?_⟩, ⟨rfl, rfl, rfl, rfl, ?_⟩⟩
  · decide
  · decide
  · decide

/-- C5, amended: in a successful `buildListener` run that selects exactly one
Gateway listener and starts from a service whose `CustomerCertARN` is empty, the
service's `CustomerCertARN` is the listener's TLS option value when its TLS mode
is Terminate and its options map holds the key `awsCustomCertARN`; without TLS
block, with another mode, or without that key, `CustomerCertARN` is the empty
string, and the run returns no error whatever the TLS block. -/
theorem buildListener_certificate (task : latticeServiceModelBuildTask)
    (parentRef0 : ParentReference) (rest : List ParentReference) (gw : Gateway)
    (l : GatewayListener) (action : DefaultAction)
    (hrefs : task.httpRoute.ParentRefs = parentRef0 :: rest)
    (hgw : task.ClientGet
      { Namespace := parentRef0.Namespace.getD task.httpRoute.Namespace,
        Name := parentRef0.Name } = Except.ok gw)
    (hact : defaultActionOf task.httpRoute = Except.ok action)
    (hsel : selectListeners gw parentRef0 = [l])
    (hempty : task.latticeService.Spec.CustomerCertARN = "") :
    (buildListener task).1 = none ∧
    (∀ tls v, l.TLS = some tls → tls.Mode = some TLSModeType.TLSModeTerminate →
      mapGet tls.Options awsCustomCertARN = some v →
      (buildListener task).2.latticeService.Spec.CustomerCertARN = v) ∧
    ((l.TLS = none ∨ ∃ tls, l.TLS = some tls ∧
        (tls.Mode ≠ some TLSModeType.TLSModeTerminate ∨
          mapGet tls.Options awsCustomCertARN = none)) →
      (buildListener task).2.latticeService.Spec.CustomerCertARN = "") := by
  rw [buildListener_ok task parentRef0 rest gw action hrefs hgw hact, hsel]
  refine ⟨rfl, ?_, ?_⟩
  · intro tls v htls hmode hkey
    simp [buildOneListener, certificateOf, htls, hmode, hkey]
  · rintro (hnone | ⟨tls, htls, hmode | hkey⟩)
    · simp [buildOneListener, certificateOf, hnone, hempty]
    · cases hm : tls.Mode with
      | none => simp [buildOneListener, certificateOf, htls, hm, hempty]
      | some mode =>
        cases mode with
        | TLSModeTerminate => exact absurd hm hmode
        | TLSModePassthrough => simp [buildOneListener, certificateOf, htls, hm, hempty]
    · cases hm : tls.Mode with
      | none => simp [buildOneListener, certificateOf, htls, hm, hempty]
      | some mode =>
        cases mode with
        | TLSModeTerminate => simp [buildOneListener, certificateOf, htls, hm, hkey, hempty]
        | TLSModePassthrough => simp [buildOneListener, certificateOf, htls, hm, hempty]

/-- Witness of C5: the scenario "listener, tls with cert arn" of the test. -/
theorem buildListener_certificate_witness :
    (buildListener (fixtureTask fixtureRoute)).2.latticeService.Spec.CustomerCertARN =
      "test-cert-ARN" :=
  (buildListener_certificate (fixtureTask fixtureRoute)
    { Group := none, Kind := none, Namespace := none, Name := "mesh1",
      SectionName := some "http" } [] fixtureGateway fixtureListener
    { BackendServiceName := "targetgroup1", BackendServiceNamespace := "default",
      Is_Import := false } rfl rfl rfl rfl rfl).2.1
    { Mode := some TLSModeType.TLSModeTerminate,
      Options := [(awsCustomCertARN, "test-cert-ARN")] } "test-cert-ARN" rfl rfl rfl

/-- C6: in a successful `buildListener` run on a route whose first rule has a
first backend reference, every `Listener` the run adds to the stack has its
default action taken from that reference: the backend name is the reference's
name, the backend namespace is the reference's when it gives one and the route's
otherwise, and `Is_Import` is true exactly for kind ServiceImport (false for kind
Service). -/
theorem buildListener_default_action (task : latticeServiceModelBuildTask)
    (rule0 : HTTPRouteRule) (rules : List HTTPRouteRule) (backendRef0 : BackendRef)
    (backendRefs : List BackendRef)
    (hrules : task.httpRoute.Rules = rule0 :: rules)
    (hbackends : rule0.BackendRefs = backendRef0 :: backendRefs)
    (hok : (buildListener task).1 = none) :
    ∀ res ∈ (buildListener task).2.stack.ListListeners, res ∉ task.stack.ListListeners →
      res.Spec.DefaultAction.BackendServiceName = backendRef0.Name ∧
      res.Spec.DefaultAction.BackendServiceNamespace =
        backendRef0.Namespace.getD task.httpRoute.Namespace ∧
      (res.Spec.DefaultAction.Is_Import = true ↔ backendRef0.Kind = some "ServiceImport") ∧
      (backendRef0.Kind = some "Service" → res.Spec.DefaultAction.Is_Import = false) := by
  obtain ⟨action, hact⟩ := buildListener_action_of_ok task hok
  have hfirst := defaultActionOf_first task.httpRoute rule0 rules backendRef0 backendRefs
    action hrules hbackends hact
  intro res hres hnew
  unfold buildListener at hres
  cases hr : task.httpRoute.ParentRefs with
  | nil =>
    simp only [hr] at hres
    exact absurd hres hnew
  | cons parentRef0 rest =>
    simp only [hr, gwNamespace_eq_getD] at hres
    cases hg : task.ClientGet
        { Namespace := parentRef0.Namespace.getD task.httpRoute.Namespace,
          Name := parentRef0.Name } with
    | error e =>
      simp only [hg] at hres
      exact absurd hres hnew
    | ok gw =>
      simp only [hg, hact] at hres
      rw [mem_ListListeners] at hres
      rcases foldl_buildOneListener_new task.httpRoute action _ _ _ hres with h1 | ⟨l, _, h1⟩
      · exact absurd ((mem_ListListeners _ _).mpr h1) hnew
      · cases h1
        exact hfirst

/-- Witness of C6: the end-to-end scenario of section 8, a backend of kind Service. -/
theorem buildListener_default_action_witness :
    fixtureBuiltListener.Spec.DefaultAction.BackendServiceName = "targetgroup1" ∧
    fixtureBuiltListener.Spec.DefaultAction.BackendServiceNamespace = "default" ∧
    (fixtureBuiltListener.Spec.DefaultAction.Is_Import = true ↔
      fixtureBackendRef.Kind = some "ServiceImport") ∧
    (fixtureBackendRef.Kind = some "Service" →
      fixtureBuiltListener.Spec.DefaultAction.Is_Import = false) :=
  buildListener_default_action (fixtureTask fixtureRoute) { BackendRefs := [fixtureBackendRef] }
    [] fixtureBackendRef [] rfl rfl rfl fixtureBuiltListener (List.mem_singleton.mpr rfl)
    (List.not_mem_nil _)

/-- C7: for a route without parent reference, and for a route whose parent
Gateway lookup fails, `buildListener` returns an error and leaves the stack as it
was; a stack that held no resource holds no `Listener` afterwards. -/
theorem buildListener_unresolved_parent (task : latticeServiceModelBuildTask)
    (hfail : task.httpRoute.ParentRefs = [] ∨
      ∃ parentRef0 rest e,
        task.httpRoute.ParentRefs = parentRef0 :: rest ∧
        task.ClientGet
          { Namespace := parentRef0.Namespace.getD task.httpRoute.Namespace,
            Name := parentRef0.Name } = Except.error e) :
    (buildListener task).1 ≠ none ∧
    (buildListener task).2.stack = task.stack ∧
    (task.stack.resources = [] → (buildListener task).2.stack.ListListeners = []) := by
  have hsame : (buildListener task).1 ≠ none ∧ (buildListener task).2.stack = task.stack := by
    unfold buildListener
    rcases hfail with h | ⟨parentRef0, rest, e, hrefs, hget⟩
    · simp [h]
    · simp [hrefs, gwNamespace_eq_getD, hget]
  refine ⟨hsame.1, hsame.2, ?_⟩
  intro hempty
  rw [hsame.2]
  simp [Stack.ListListeners, hempty]

/-- Witness of C7: the test cases "no parentref" and "No k8sgateway object", each
on a new stack. -/
theorem buildListener_unresolved_parent_witness :
    ((buildListener (fixtureTask fixtureRouteNoParent)).1 ≠ none ∧
      (buildListener (fixtureTask fixtureRouteNoParent)).2.stack.ListListeners = []) ∧
    ((buildListener (fixtureTaskNoGateway fixtureRoute)).1 ≠ none ∧
      (buildListener (fixtureTaskNoGateway fixtureRoute)).2.stack.ListListeners = []) :=
  ⟨⟨(buildListener_unresolved_parent (fixtureTask fixtureRouteNoParent) (Or.inl rfl)).1,
    (buildListener_unresolved_parent (fixtureTask fixtureRouteNoParent) (Or.inl rfl)).2.2 rfl⟩,
   ⟨(buildListener_unresolved_parent (fixtureTaskNoGateway fixtureRoute)
      (Or.inr ⟨_, _, fixtureError, rfl, rfl⟩)).1,
    (buildListener_unresolved_parent (fixtureTaskNoGateway fixtureRoute)
      (Or.inr ⟨_, _, fixtureError, rfl, rfl⟩)).2.2 rfl⟩⟩


/-! ## Properties of `buildAndDeployModel` after a successful build -/

/-- C11, on the code: whatever error `Deploy` returns, `buildAndDeployModel`
returns `(nil, nil, e)` and records the Normal event `RetryReconcile`; the
Warning event `FailedDeployModel` is recorded for no error, since the test
`errors.As(err, &retryErr)` of line 234 holds of every error. -/
theorem buildAndDeployModel_deploy_error (r : HTTPRouteReconciler) (httproute : HTTPRoute)
    (stack : Stack) (latticeService : Service) (e : GoError)
    (hbuild : r.Build httproute = Except.ok (stack, latticeService))
    (hdeploy : r.Deploy stack = some e) :
    (buildAndDeployModel r httproute).stack = none ∧
    (buildAndDeployModel r httproute).latticeService = none ∧
    (buildAndDeployModel r httproute).err = some e ∧
    (buildAndDeployModel r httproute).effects =
      [Effect.Build httproute, Effect.Marshal stack, Effect.Deploy stack,
       Effect.Event httproute EventType.EventTypeNormal
         EventReason.HTTPRouteEventReasonRetryReconcile "retry reconcile..."] ∧
    (∀ obj message, Effect.Event obj EventType.EventTypeWarning
        EventReason.HTTPRouteEventReasonFailedDeployModel message ∉
      (buildAndDeployModel r httproute).effects) := by
  unfold buildAndDeployModel
  simp only [hbuild, hdeploy, errorsAsRetryErr, if_true]
  simp

/-- Witness of C11: `Deploy` fails with an access-denied error, which is not the
retry error, and the event recorded is the Normal `RetryReconcile` one. -/
theorem buildAndDeployModel_deploy_error_witness :
    (buildAndDeployModel (fixtureReconcilerDeployFails fixtureRoute) fixtureRoute).err =
      some fixtureAccessDenied ∧
    (buildAndDeployModel (fixtureReconcilerDeployFails fixtureRoute) fixtureRoute).effects =
      [Effect.Build fixtureRoute, Effect.Marshal fixtureStack, Effect.Deploy fixtureStack,
       Effect.Event fixtureRoute EventType.EventTypeNormal
         EventReason.HTTPRouteEventReasonRetryReconcile "retry reconcile..."] :=
  ⟨(buildAndDeployModel_deploy_error (fixtureReconcilerDeployFails fixtureRoute) fixtureRoute
      fixtureStack fixtureService fixtureAccessDenied rfl rfl).2.2.1,
   (buildAndDeployModel_deploy_error (fixtureReconcilerDeployFails fixtureRoute) fixtureRoute
      fixtureStack fixtureService fixtureAccessDenied rfl rfl).2.2.2.1⟩

/-- C12, on the code: when `Build` and `Deploy` both succeed, `Marshal` and
`Deploy` are called whatever `Marshal` answers, and `buildAndDeployModel` returns
the built stack and service together with the error of `Marshal` (line 247
returns the variable that line 221 assigned), so a failed `Marshal` makes the
call return a non-nil error. -/
theorem buildAndDeployModel_returns_marshal_error (r : HTTPRouteReconciler)
    (httproute : HTTPRoute) (stack : Stack) (latticeService : Service)
    (hbuild : r.Build httproute = Except.ok (stack, latticeService))
    (hdeploy : r.Deploy stack = none) :
    (buildAndDeployModel r httproute).stack = some stack ∧
    (buildAndDeployModel r httproute).latticeService = some latticeService ∧
    (buildAndDeployModel r httproute).err = (r.Marshal stack).2 ∧
    (buildAndDeployModel r httproute).effects =
      [Effect.Build httproute, Effect.Marshal stack, Effect.Deploy stack] := by
  unfold buildAndDeployModel
  simp only [hbuild, hdeploy]
  simp

/-- Witness of C12: `Build` and `Deploy` succeed and `Marshal` fails; the call
returns the error of `Marshal`, where it returns nil when `Marshal` succeeds. -/
theorem buildAndDeployModel_returns_marshal_error_witness :
    (buildAndDeployModel (fixtureReconcilerMarshalFails fixtureRoute) fixtureRoute).err =
      some fixtureMarshalError ∧
    (buildAndDeployModel (fixtureReconciler fixtureRoute "dns1" 1) fixtureRoute).err = none :=
  ⟨(buildAndDeployModel_returns_marshal_error (fixtureReconcilerMarshalFails fixtureRoute)
      fixtureRoute fixtureStack fixtureService rfl rfl).2.2.1,
   (buildAndDeployModel_returns_marshal_error (fixtureReconciler fixtureRoute "dns1" 1)
      fixtureRoute fixtureStack fixtureService rfl rfl).2.2.1⟩


/-! ## Properties of `reconcileHTTPRouteResource` -/

/-- No call of `buildAndDeployModel` patches the route or its status. -/
theorem buildAndDeployModel_no_Patch (r : HTTPRouteReconciler) (httproute : HTTPRoute)
    (obj old : HTTPRoute) :
    Effect.Patch obj old ∉ (buildAndDeployModel r httproute).effects ∧
    Effect.StatusPatch obj old ∉ (buildAndDeployModel r httproute).effects := by
  unfold buildAndDeployModel
  split
  · simp
  · split
    · simp [errorsAsRetryErr]
    · simp

/-- Every call of `updateHTTPRouteStatus` starts by issuing the annotation patch,
which carries the DNS name it was given. -/
theorem updateHTTPRouteStatus_effects_head (config : Config) (r : HTTPRouteReconciler)
    (dns : String) (httproute : HTTPRoute) :
    ∃ obj old rest,
      (updateHTTPRouteStatus config r dns httproute).effects = Effect.Patch obj old :: rest ∧
      mapGet obj.Annotations LatticeAssignedDomainName = some dns := by
  unfold updateHTTPRouteStatus
  dsimp only
  split
  · exact ⟨_, _, _, rfl, mapGet_mapSet _ _ _⟩
  · split
    · exact ⟨_, _, _, rfl, mapGet_mapSet _ _ _⟩
    · split
      · exact ⟨_, _, _, rfl, mapGet_mapSet _ _ _⟩
      · split
        · exact ⟨_, _, _, rfl, mapGet_mapSet _ _ _⟩
        · split
          · exact ⟨_, _, _, rfl, mapGet_mapSet _ _ _⟩
          · exact ⟨_, _, _, rfl, mapGet_mapSet _ _ _⟩

/-- C13: `reconcileHTTPRouteResource` projects status only after a successful
deploy. `updateHTTPRouteStatus` is invoked (its annotation patch is among the
effects) exactly when `buildAndDeployModel` returned a nil error and the data
store holds a service record for the route's name and namespace; it is then given
that record's DNS, and nothing patches the route before it. The call returns
exactly the error of `buildAndDeployModel`, also when `updateHTTPRouteStatus`
returns an error; it ends otherwise only when `updateHTTPRouteStatus` panics. -/
theorem reconcileHTTPRouteResource_projects_after_deploy (config : Config)
    (r : HTTPRouteReconciler) (httproute : HTTPRoute) :
    ((∃ obj old,
        Effect.Patch obj old ∈ (reconcileHTTPRouteResource config r httproute).effects) ↔
      ((buildAndDeployModel r httproute).err = none ∧
        ∃ serviceStatus,
          r.GetLatticeService httproute.Name httproute.Namespace = Except.ok serviceStatus)) ∧
    (∀ serviceStatus, (buildAndDeployModel r httproute).err = none →
      r.GetLatticeService httproute.Name httproute.Namespace = Except.ok serviceStatus →
      ∃ before,
        (∀ obj old, Effect.Patch obj old ∉ before ∧ Effect.StatusPatch obj old ∉ before) ∧
        (reconcileHTTPRouteResource config r httproute).effects =
          before ++ (updateHTTPRouteStatus config r serviceStatus.DNS httproute).effects) ∧
    (∀ serviceStatus e,
      r.GetLatticeService httproute.Name httproute.Namespace = Except.ok serviceStatus →
      (updateHTTPRouteStatus config r serviceStatus.DNS httproute).completion =
        Completion.returned e →
      (reconcileHTTPRouteResource config r httproute).completion =
        Completion.returned (buildAndDeployModel r httproute).err) ∧
    ((reconcileHTTPRouteResource config r httproute).completion =
        Completion.returned (buildAndDeployModel r httproute).err ∨
      ∃ serviceStatus m,
        (buildAndDeployModel r httproute).err = none ∧
        r.GetLatticeService httproute.Name httproute.Namespace = Except.ok serviceStatus ∧
        (updateHTTPRouteStatus config r serviceStatus.DNS httproute).completion =
          Completion.panicked m ∧
        (reconcileHTTPRouteResource config r httproute).completion =
          Completion.panicked m) := by
  have hb := buildAndDeployModel_no_Patch r httproute
  have hfin : ∀ obj old : HTTPRoute,
      Effect.Patch obj old ∉
        (match r.AddFinalizers httproute httpRouteFinalizer with
          | some err =>
            [Effect.AddFinalizers httproute httpRouteFinalizer,
             Effect.Event httproute EventType.EventTypeWarning
               EventReason.HTTPRouteventReasonFailedAddFinalizer
               ("Failed add finalizer due to " ++ err.msg)]
          | none => [Effect.AddFinalizers httproute httpRouteFinalizer]) ∧
      Effect.StatusPatch obj old ∉
        (match r.AddFinalizers httproute httpRouteFinalizer with
          | some err =>
            [Effect.AddFinalizers httproute httpRouteFinalizer,
             Effect.Event httproute EventType.EventTypeWarning
               EventReason.HTTPRouteventReasonFailedAddFinalizer
               ("Failed add finalizer due to " ++ err.msg)]
          | none => [Effect.AddFinalizers httproute httpRouteFinalizer]) := by
    intro obj old
    cases r.AddFinalizers httproute httpRouteFinalizer <;> simp
  unfold reconcileHTTPRouteResource
  dsimp only
  cases herr : (buildAndDeployModel r httproute).err with
  | some e =>
    simp only [List.mem_append, reduceCtorEq, false_and, iff_false, not_exists, not_or,
      IsEmpty.forall_iff, implies_true, true_and, true_or, and_true]
    intro obj old
    exact ⟨(hfin obj old).1, (hb obj old).1⟩
  | none =>
    simp only [true_and]
    cases hget : r.GetLatticeService httproute.Name httproute.Namespace with
    | error e =>
      simp only [List.mem_append, List.mem_singleton, reduceCtorEq, or_false, exists_false,
        iff_false, not_exists, not_or, IsEmpty.forall_iff, implies_true, true_and, true_or,
        and_true]
      intro obj old
      exact ⟨(hfin obj old).1, (hb obj old).1⟩
    | ok serviceStatus =>
      dsimp only
      obtain ⟨obj0, old0, rest0, hhead, _⟩ :=
        updateHTTPRouteStatus_effects_head config r serviceStatus.DNS httproute
      refine ⟨?_, ?_, ?_, ?_⟩
      · refine iff_of_true ⟨obj0, old0, ?_⟩ ⟨serviceStatus, rfl⟩
        split <;> simp [hhead]
      · intro s _ hs
        cases hs
        refine ⟨(match r.AddFinalizers httproute httpRouteFinalizer with
            | some err =>
              [Effect.AddFinalizers httproute httpRouteFinalizer,
               Effect.Event httproute EventType.EventTypeWarning
                 EventReason.HTTPRouteventReasonFailedAddFinalizer
                 ("Failed add finalizer due to " ++ err.msg)]
            | none => [Effect.AddFinalizers httproute httpRouteFinalizer]) ++
          (buildAndDeployModel r httproute).effects ++
          [Effect.Event httproute EventType.EventTypeNormal
            EventReason.HTTPRouteeventReasonDeploySucceed "Adding/Updating reconcile Done!"],
          ?clean, ?eq⟩
        case eq => split <;> rfl
        case clean =>
          intro obj old
          simp only [List.mem_append, List.mem_singleton, reduceCtorEq, or_false, not_or]
          exact ⟨⟨(hfin obj old).1, (hb obj old).1⟩, ⟨(hfin obj old).2, (hb obj old).2⟩⟩
      · intro s e hs hret
        cases hs
        simp only [hret]
      · cases hs : (updateHTTPRouteStatus config r serviceStatus.DNS httproute).completion with
        | returned e =>
          simp only [hs]
          exact Or.inl trivial
        | panicked m =>
          simp only [hs]
          exact Or.inr ⟨serviceStatus, m, rfl, hs, rfl⟩

/-- Witness of C13: the fixture route with every collaborator succeeding; the
status is projected and the call returns nil. -/
theorem reconcileHTTPRouteResource_projects_after_deploy_witness :
    (reconcileHTTPRouteResource fixtureConfig (fixtureReconciler fixtureRoute "dns1" 9)
      fixtureRoute).completion = Completion.returned none :=
  (reconcileHTTPRouteResource_projects_after_deploy fixtureConfig
    (fixtureReconciler fixtureRoute "dns1" 9) fixtureRoute).2.2.1 { DNS := "dns1" } none rfl rfl


/-! ## Properties of the Gateway event handler -/

/-- The requests in the queue after one iteration of the loop of
`enqueueImpactedHTTPRoute`: those before it and, for a route whose first parent
Gateway and its class resolve under namespace "default" with this controller's
name, the route's request. -/
theorem mem_enqueueImpactedHTTPRouteBody (config : Config) (h : enqueueRequestsForGatewayEvent)
    (queue : List Request) (httpRoute : HTTPRoute) (req : Request) :
    req ∈ enqueueImpactedHTTPRouteBody config h queue httpRoute ↔
      req ∈ queue ∨
      (req = { NamespacedName := { Namespace := httpRoute.Namespace, Name := httpRoute.Name } } ∧
        ∃ parentRef0 rest gw gwClass,
          httpRoute.ParentRefs = parentRef0 :: rest ∧
          h.clientGetGateway { Namespace := "default", Name := parentRef0.Name } = Except.ok gw ∧
          h.clientGetGatewayClass { Namespace := "default", Name := gw.GatewayClassName } =
            Except.ok gwClass ∧
          gwClass.ControllerName = config.LatticeGatewayControllerName) := by
  unfold enqueueImpactedHTTPRouteBody
  cases hp : httpRoute.ParentRefs with
  | nil => simp
  | cons parentRef0 rest =>
    dsimp only
    cases hg : h.clientGetGateway { Namespace := "default", Name := parentRef0.Name } with
    | error e =>
      simp only [List.cons.injEq, reduceCtorEq]
      constructor
      · exact Or.inl
      · rintro (hq | ⟨_, p, rest1, gw, gwClass, ⟨hp1, _⟩, hgw, _⟩)
        · exact hq
        · subst hp1
          rw [hg] at hgw
          cases hgw
    | ok gw =>
      dsimp only
      cases hc : h.clientGetGatewayClass
          { Namespace := "default", Name := gw.GatewayClassName } with
      | error e =>
        simp only [List.cons.injEq]
        constructor
        · exact Or.inl
        · rintro (hq | ⟨_, p, rest1, gw1, gwClass, ⟨hp1, _⟩, hgw, hcl, _⟩)
          · exact hq
          · subst hp1
            rw [hg] at hgw
            cases hgw
            rw [hc] at hcl
            cases hcl
      | ok gwClass =>
        dsimp only
        by_cases hn : gwClass.ControllerName = config.LatticeGatewayControllerName
        · rw [if_pos hn]
          simp only [List.mem_append, List.mem_singleton, List.cons.injEq]
          constructor
          · rintro (hq | hr)
            · exact Or.inl hq
            · exact Or.inr ⟨hr, parentRef0, rest, gw, gwClass, ⟨rfl, rfl⟩, hg, hc, hn⟩
          · rintro (hq | ⟨hr, _⟩)
            · exact Or.inl hq
            · exact Or.inr hr
        · rw [if_neg hn]
          simp only [List.cons.injEq]
          constructor
          · exact Or.inl
          · rintro (hq | ⟨_, p, rest1, gw1, gwClass1, ⟨hp1, _⟩, hgw, hcl, hname⟩)
            · exact hq
            · subst hp1
              rw [hg] at hgw
              cases hgw
              rw [hc] at hcl
              cases hcl
              exact absurd hname hn

/-- The requests in the queue after the loop of `enqueueImpactedHTTPRoute` has run
over a list of routes. -/
theorem mem_foldl_enqueueImpactedHTTPRouteBody (config : Config)
    (h : enqueueRequestsForGatewayEvent) (items : List HTTPRoute) (queue : List Request)
    (req : Request) :
    req ∈ items.foldl (enqueueImpactedHTTPRouteBody config h) queue ↔
      req ∈ queue ∨
      ∃ httpRoute ∈ items,
        req = { NamespacedName :=
                  { Namespace := httpRoute.Namespace, Name := httpRoute.Name } } ∧
        ∃ parentRef0 rest gw gwClass,
          httpRoute.ParentRefs = parentRef0 :: rest ∧
          h.clientGetGateway { Namespace := "default", Name := parentRef0.Name } = Except.ok gw ∧
          h.clientGetGatewayClass { Namespace := "default", Name := gw.GatewayClassName } =
            Except.ok gwClass ∧
          gwClass.ControllerName = config.LatticeGatewayControllerName := by
  induction items generalizing queue with
  | nil => simp
  | cons x xs ih =>
    rw [List.foldl_cons, ih, mem_enqueueImpactedHTTPRouteBody]
    constructor
    · rintro ((hq | hx) | ⟨y, hy, hr⟩)
      · exact Or.inl hq
      · exact Or.inr ⟨x, List.mem_cons_self _ _, hx⟩
      · exact Or.inr ⟨y, List.mem_cons_of_mem _ hy, hr⟩
    · rintro (hq | ⟨y, hy, hr⟩)
      · exact Or.inl (Or.inl hq)
      · rcases List.mem_cons.mp hy with h1 | h1
        · subst h1
          exact Or.inl (Or.inr hr)
        · exact Or.inr ⟨y, h1, hr⟩

/-- C14, on the code: a route declared in namespace `team-a` whose parent Gateway
`mesh1` lives in `team-a` too. `isHTTPRouteRelevant` accepts it, while
`enqueueImpactedHTTPRoute`, over the same object store listing that route, looks
the Gateway up under namespace "default" and enqueues nothing. Over a store that
holds `mesh1` in namespace `default` only, it is the other way round. -/
theorem filters_disagree_outside_default :
    (isHTTPRouteRelevant fixtureConfig fixtureReconcilerTeamA fixtureRouteTeamA = true ∧
      enqueueImpactedHTTPRoute fixtureConfig
        (fixtureHandler fixtureReconcilerTeamA [fixtureRouteTeamA]) [] fixtureGateway = []) ∧
    (isHTTPRouteRelevant fixtureConfig (fixtureReconciler fixtureRouteTeamA "" 1)
        fixtureRouteTeamA = false ∧
      enqueueImpactedHTTPRoute fixtureConfig
        (fixtureHandler (fixtureReconciler fixtureRouteTeamA "" 1) [fixtureRouteTeamA]) []
        fixtureGateway =
          [{ NamespacedName := { Namespace := "team-a", Name := "service1" } }]) := by
  refine ⟨⟨?_, ?_⟩, ⟨?_, ?_⟩⟩ <;> decide

/-- C15: the requests `enqueueImpactedHTTPRoute` adds do not depend on the Gateway
of the event: for any two Gateway arguments and the same object store and queue
the resulting queue is the same; the requests added carry the namespace and name
of exactly the listed routes that have a first parent reference, whose Gateway and
GatewayClass both resolve under namespace "default", and whose class has the
controller name `config.LatticeGatewayControllerName`. -/
theorem enqueueImpactedHTTPRoute_ignores_gateway (config : Config)
    (h : enqueueRequestsForGatewayEvent) (gw1 gw2 : Gateway) :
    (∀ queue, enqueueImpactedHTTPRoute config h queue gw1 =
      enqueueImpactedHTTPRoute config h queue gw2) ∧
    (∀ req, req ∈ enqueueImpactedHTTPRoute config h [] gw1 ↔
      ∃ httpRoute ∈ h.clientList,
        req = { NamespacedName :=
                  { Namespace := httpRoute.Namespace, Name := httpRoute.Name } } ∧
        ∃ parentRef0 rest gw gwClass,
          httpRoute.ParentRefs = parentRef0 :: rest ∧
          h.clientGetGateway { Namespace := "default", Name := parentRef0.Name } = Except.ok gw ∧
          h.clientGetGatewayClass { Namespace := "default", Name := gw.GatewayClassName } =
            Except.ok gwClass ∧
          gwClass.ControllerName = config.LatticeGatewayControllerName) := by
  refine ⟨fun queue => rfl, ?_⟩
  intro req
  unfold enqueueImpactedHTTPRoute
  rw [mem_foldl_enqueueImpactedHTTPRouteBody]
  simp


/-! ## Index safety of `updateHTTPRouteStatus` -/

/-- C16: for a route with at least one parent reference whose `Status.Parents` is
empty or starts with an entry that has a first condition, every slice access of
`updateHTTPRouteStatus` (`Spec.ParentRefs[0]`, `Status.Parents[0]`,
`Conditions[0]`) is in bounds: whatever the collaborators answer and whatever the
DNS string, the call returns and does not panic. -/
theorem updateHTTPRouteStatus_index_safe (config : Config) (r : HTTPRouteReconciler)
    (dns : String) (httproute : HTTPRoute)
    (hrefs : httproute.ParentRefs ≠ [])
    (hshape : httproute.Parents = [] ∨
      ∃ parent0 parents cond0 conds,
        httproute.Parents = parent0 :: parents ∧ parent0.Conditions = cond0 :: conds) :
    (∃ err, (updateHTTPRouteStatus config r dns httproute).completion =
      Completion.returned err) ∧
    ∀ msg, (updateHTTPRouteStatus config r dns httproute).completion ≠
      Completion.panicked msg := by
  have hret : ∃ err, (updateHTTPRouteStatus config r dns httproute).completion =
      Completion.returned err := by
    obtain ⟨parentRef0, rest, hrefs1⟩ := List.exists_cons_of_ne_nil hrefs
    obtain ⟨n, ns, g, d, a, p, ru, pa⟩ := httproute
    simp only at hrefs1 hshape
    subst hrefs1
    rcases hshape with hnil | ⟨parent0, parents, cond0, conds, hparents, hconds⟩
    · subst hnil
      unfold updateHTTPRouteStatus
      dsimp only
      split
      · exact ⟨_, rfl⟩
      · cases a with
        | nil =>
          simp only [List.length_nil, if_true]
          split <;> exact ⟨_, rfl⟩
        | cons x xs =>
          simp only [List.length_cons, List.length_nil, Nat.succ_ne_zero, if_false, if_true]
          split <;> exact ⟨_, rfl⟩
    · obtain ⟨pr, cn, cs⟩ := parent0
      simp only at hconds
      subst hparents hconds
      unfold updateHTTPRouteStatus
      dsimp only
      split
      · exact ⟨_, rfl⟩
      · cases a with
        | nil =>
          simp only [List.length_nil, List.length_cons, Nat.succ_ne_zero, if_false, if_true]
          split <;> exact ⟨_, rfl⟩
        | cons x xs =>
          simp only [List.length_cons, Nat.succ_ne_zero, if_false]
          split <;> exact ⟨_, rfl⟩
  refine ⟨hret, ?_⟩
  intro msg hpanic
  obtain ⟨err, herr⟩ := hret
  rw [herr] at hpanic
  cases hpanic

/-- Witness of C16: the fixture route, without parent status, against collaborators
whose patches succeed. -/
theorem updateHTTPRouteStatus_index_safe_witness :
    ∃ err, (updateHTTPRouteStatus fixtureConfig (fixtureReconciler fixtureRoute "dns1" 9)
      "dns1" fixtureRoute).completion = Completion.returned err :=
  (updateHTTPRouteStatus_index_safe fixtureConfig (fixtureReconciler fixtureRoute "dns1" 9)
    "dns1" fixtureRoute (by decide) (Or.inl rfl)).1


end LatticeK8s
